import Mathlib

/-!
Verification development for the protocol engine of `src/utils/loggerconf.py`
(TeeGrid's host-side logger configurator).  The Python source is shallowly
embedded: pure helpers become Lean functions over `ℚ` (Python numbers are
modelled exactly as rationals), fallible conversions (`int(...)`,
`float(...)`) return `Except`, and the polling-tick state machine of the
`Logger` class becomes explicit state passing over a `LoggerState` record.
-/

namespace LoggerConf

/-- A Python numeric value: `int` or `float` (floats modelled exactly as
rationals). -/
inductive PyNum where
  | i (z : ℤ)
  | f (q : ℚ)
deriving DecidableEq, Repr

/-- Numeric value of a `PyNum` as a rational. -/
def PyNum.val : PyNum → ℚ
  | .i z => (z : ℚ)
  | .f q => q

/-- Membership in the scan set `'0123456789.+-'` of `parse_number`
(line 85). -/
def pnChar (c : Char) : Bool :=
  c.isDigit || c = '.' || c = '+' || c = '-'

/-- The scanning loop of `parse_number` (source lines 75–87): walk the
string; at a second decimal point or a character outside the scan set, stop
with cut index `n := i`; otherwise remember `have_point` and `ip` (one past
the first decimal point).  `len` is the full length of the string, the
initial values of `n` and `ip`. -/
def pnScan (len : Nat) : List Char → Nat → Bool → Nat → Nat × Bool × Nat
  | [], _, hp, ip => (len, hp, ip)
  | c :: rest, i, hp, ip =>
    if c = '.' then
      if hp then (i, hp, ip)
      else pnScan len rest (i + 1) true (i + 1)
    else if pnChar c then pnScan len rest (i + 1) hp ip
    else (i, hp, ip)

/-- Decimal value of a digit list (most significant first). -/
def digitsVal (cs : List Char) : ℕ :=
  cs.foldl (fun a c => 10 * a + (c.toNat - '0'.toNat)) 0

/-- Split an optional single leading sign off a numeral. -/
def stripSign : List Char → ℤ × List Char
  | '+' :: rest => (1, rest)
  | '-' :: rest => (-1, rest)
  | cs => (1, cs)

/-- Python `int(t)` on a string drawn from the scan set: an optional single
sign followed by at least one digit; anything else raises `ValueError`. -/
def pyIntOfChars (cs : List Char) : Except String ℤ :=
  let sg := (stripSign cs).1
  let ds := (stripSign cs).2
  if !ds.isEmpty && ds.all Char.isDigit then .ok (sg * digitsVal ds)
  else .error "ValueError: int"

/-- Python `float(t)` on a string drawn from the scan set and containing
exactly one decimal point: an optional single sign, digits around one
point, at least one digit in total; anything else raises `ValueError`. -/
def pyFloatOfChars (cs : List Char) : Except String ℚ :=
  let sg := (stripSign cs).1
  let ds := (stripSign cs).2
  if ds.all (fun c => c.isDigit || c = '.') && ds.count '.' == 1
      && ds.any Char.isDigit then
    let ipart := ds.takeWhile (· ≠ '.')
    let fpart := (ds.dropWhile (· ≠ '.')).drop 1
    .ok ((sg : ℚ) * ((digitsVal ipart : ℚ)
      + (digitsVal fpart : ℚ) / (10 : ℚ) ^ fpart.length))
  else .error "ValueError: float"

/-- Python whitespace, as stripped by `str.strip()`. -/
def isPySpace (c : Char) : Bool :=
  c = ' ' || c = '\t' || c = '\n' || c = '\r' || c = '\x0b' || c = '\x0c'

/-- `str.strip()` on a character list. -/
def pyStripChars (cs : List Char) : List Char :=
  ((cs.dropWhile isPySpace).reverse.dropWhile isPySpace).reverse

/-- `str.strip()`. -/
def pyStrip (s : String) : String := ⟨pyStripChars s.toList⟩

/-- The tail of `parse_number` after the scan (source lines 88–93): given
the scan's `(n, have_point, ip)`, build the result.  The decimals count
`nd = n - ip if n >= ip else 0` is truncated subtraction on `ℕ`. -/
def pnFinish (s : String) : Nat × Bool × Nat →
    Except String (Option PyNum × String × ℕ)
  | (n, hp, ip) =>
    if n = 0 then .ok (none, s, 0)
    else if hp then
      (pyFloatOfChars (s.toList.take n)).map fun q =>
        (some (.f q), (⟨pyStripChars (s.toList.drop n)⟩ : String), n - ip)
    else
      (pyIntOfChars (s.toList.take n)).map fun z =>
        (some (.i z), (⟨pyStripChars (s.toList.drop n)⟩ : String), n - ip)

/-- `parse_number` (source lines 52–93).  Returns `(value, unit, decimals)`;
a `ValueError` raised by the `int`/`float` conversion on a malformed leading
run (e.g. `"."` or `"+"`) is modelled as `Except.error`. -/
def parse_number (s : String) : Except String (Option PyNum × String × ℕ) :=
  pnFinish s (pnScan s.toList.length s.toList 0 false s.toList.length)

/-- The `unit_prefixes` table (source lines 96–107), in its Python dict
insertion order — the order in which `change_unit` iterates it. -/
def unit_prefixes : List (String × ℚ) :=
  [("Deka", 10), ("deka", 10), ("Hekto", 100), ("hekto", 100),
   ("kilo", 1000), ("Kilo", 1000), ("Mega", 1000000), ("mega", 1000000),
   ("Giga", 10 ^ 9), ("giga", 10 ^ 9), ("Tera", 10 ^ 12), ("tera", 10 ^ 12),
   ("Peta", 10 ^ 15), ("peta", 10 ^ 15), ("Exa", 10 ^ 18), ("exa", 10 ^ 18),
   ("Dezi", 1 / 10), ("dezi", 1 / 10), ("Zenti", 1 / 100), ("centi", 1 / 100),
   ("Milli", 1 / 1000), ("milli", 1 / 1000),
   ("Micro", 1 / 10 ^ 6), ("micro", 1 / 10 ^ 6),
   ("Nano", 1 / 10 ^ 9), ("nano", 1 / 10 ^ 9),
   ("Piko", 1 / 10 ^ 12), ("piko", 1 / 10 ^ 12),
   ("Femto", 1 / 10 ^ 15), ("femto", 1 / 10 ^ 15),
   ("Atto", 1 / 10 ^ 18), ("atto", 1 / 10 ^ 18),
   ("da", 10), ("h", 100), ("K", 1000), ("k", 1000), ("M", 1000000),
   ("G", 10 ^ 9), ("T", 10 ^ 12), ("P", 10 ^ 15), ("E", 10 ^ 18),
   ("d", 1 / 10), ("c", 1 / 100), ("mu", 1 / 10 ^ 6), ("u", 1 / 10 ^ 6),
   ("m", 1 / 1000),
   ("n", 1 / 10 ^ 9), ("p", 1 / 10 ^ 12), ("f", 1 / 10 ^ 15),
   ("a", 1 / 10 ^ 18)]

/-- The special-unit factor table local to `change_unit` (source
line 175). -/
def unit_factors : List (String × ℚ) :=
  [("%", 1 / 100), ("hour", 3600), ("h", 3600), ("min", 60)]

/-- Exact lookup in a factor table (Python dict `in` + indexing). -/
def lookupFactor (tbl : List (String × ℚ)) (u : String) : Option ℚ :=
  (tbl.find? (fun p => p.1 == u)).map Prod.snd

/-- The prefix-resolution loop of `change_unit` (source lines 182–184 and
191–193): every key that is a proper prefix of the unit overwrites the
factor, so the LAST match in table order wins (the loop has no `break`). -/
def prefixFactor (u : String) : ℚ :=
  unit_prefixes.foldl
    (fun fac p =>
      if u.length > p.1.length && p.1.toList.isPrefixOf u.toList then p.2
      else fac) 1

/-- Factor of one unit as resolved by `change_unit` (source lines
177–193). -/
def resolveFactor (u : String) : ℚ :=
  match lookupFactor unit_factors u with
  | some fac => fac
  | none => prefixFactor u

/-- `change_unit` (source lines 111–195). -/
def change_unit (val : ℚ) (old_unit new_unit : String) : ℚ :=
  if old_unit.isEmpty && new_unit.isEmpty then val
  else if old_unit.isEmpty && new_unit != "%" then val
  else if new_unit.isEmpty && old_unit != "%" then val
  else val * resolveFactor old_unit / resolveFactor new_unit

/-- Spec §4.3: the leading run scanned by `parse_number` — the longest
prefix of characters drawn from digits, `.`, `+`, `-`, accepting at most
one decimal point (`seenPoint` records whether a point was already
consumed). -/
def specLeadingRun : List Char → Bool → List Char
  | [], _ => []
  | c :: rest, seenPoint =>
    if c = '.' then
      if seenPoint then [] else c :: specLeadingRun rest true
    else if pnChar c then c :: specLeadingRun rest seenPoint
    else []

/-- Result of `parse_number` as the spec describes it, given the leading
run, with the proviso that a nonempty run that is not a valid numeral
raises `ValueError`: the run becomes an integer if no decimal point was
consumed and a float otherwise; the trailing remainder, trimmed, is the
unit; the characters of the run after the point are the decimals count; an
empty run yields `(None, s, 0)`. -/
def pnSpecFinish (s : String) (run : List Char) :
    Except String (Option PyNum × String × ℕ) :=
  if run.isEmpty then .ok (none, s, 0)
  else if run.any (· == '.') then
    (pyFloatOfChars run).map fun q =>
      (some (.f q), (⟨pyStripChars (s.toList.drop run.length)⟩ : String),
       ((run.dropWhile (· != '.')).drop 1).length)
  else
    (pyIntOfChars run).map fun z =>
      (some (.i z), (⟨pyStripChars (s.toList.drop run.length)⟩ : String), 0)

/-- `parse_number` as described by spec §4.3 (with the `ValueError`
proviso): scan the leading run, then build the result from it. -/
def parse_number_spec (s : String) :
    Except String (Option PyNum × String × ℕ) :=
  pnSpecFinish s (specLeadingRun s.toList false)

/-- Amended description of the prefix resolution in `change_unit`: the
factor of the LAST key of `unit_prefixes`, in table-iteration order, that
is a proper prefix of the unit (not the longest such key); `1` when no key
matches. -/
def lastMatchFactor (u : String) : ℚ :=
  ((unit_prefixes.filter fun p =>
      u.length > p.1.length && p.1.toList.isPrefixOf u.toList).map
    Prod.snd).getLastD 1

/-- Python `str.startswith`. -/
def pyStartsWith (s pre : String) : Bool :=
  pre.toList.isPrefixOf s.toList

/-- Python `str.split(sep)` for a one-character separator, on character
lists: split at every occurrence, keeping empty pieces. -/
def splitChar (sep : Char) (cs : List Char) : List (List Char) :=
  cs.foldr
    (fun c acc =>
      match acc with
      | [] => [[c]]
      | w :: ws => if c = sep then [] :: w :: ws else (c :: w) :: ws)
    [[]]

/-- Python `str.split(sep)` for a one-character separator. -/
def pySplitChar (sep : Char) (s : String) : List String :=
  (splitChar sep s.toList).map fun w => (⟨w⟩ : String)

/-- One step of Python `str.split()` (split on whitespace runs): extend or
start a word. -/
def wordsStep (c : Char) (acc : List (List Char)) : List (List Char) :=
  if isPySpace c then [] :: acc
  else
    match acc with
    | [] => [[c]]
    | w :: ws => (c :: w) :: ws

/-- Python `str.split()` with no argument: split on whitespace runs,
discarding empty pieces. -/
def pySplitWs (s : String) : List String :=
  ((s.toList.foldr wordsStep []).filter (· ≠ [])).map fun w =>
    (⟨w⟩ : String)

/-- Clamp a Python slice index to `0 ≤ _ ≤ len` (negative counts from the
end). -/
def pyClampIndex (len : ℕ) (i : Int) : ℕ :=
  if i < 0 then (max 0 ((len : Int) + i)).toNat else min i.toNat len

/-- Python slice `s[a:b]`. -/
def pySlice (cs : List Char) (a b : Int) : List Char :=
  (cs.take (pyClampIndex cs.length b)).drop (pyClampIndex cs.length a)

/-- Python `s[:-k]` for `k > 0`. -/
def pySliceNeg (cs : List Char) (k : ℕ) : List Char :=
  cs.take (cs.length - k)

/-- Python `str.find`: index of the first occurrence, `-1` if absent. -/
def pyFind (hay needle : String) : Int :=
  match (List.range (hay.length + 1)).find? (fun i =>
      needle.toList.isPrefixOf (hay.toList.drop i)) with
  | some i => (i : Int)
  | none => -1

/-- The state of a `Parameter` after `initialize` (source lines 2023–2062):
the fields that `initialize` assigns. -/
structure InitResult where
  type_str : String
  max_chars : ℤ
  min_val : Option String
  max_val : Option String
  special_val : Option ℤ
  special_str : Option String
  num_value : Option PyNum
  unit : Option String
  out_unit : Option String
  ndec : Option ℕ
deriving DecidableEq, Repr

/-- The token loop of `Parameter.initialize` (source lines 2041–2058):
`between A and B` sets both bounds, `greater than A` only the minimum,
`less than B` only the maximum, `or "Label" [Code]` the special sentinel.
List indexing that Python would fault on raises `IndexError`.  (In Python
a fault in the `or` branch can leave `special_str` assigned before the
raise; the raise propagates out of `initialize`, so the partial state is
not observable through a successful return.) -/
def initTokens (u : Option String) :
    List String → InitResult → Except String InitResult
  | [], r => .ok r
  | tok :: rest, r =>
    let t := pyStrip tok
    if pyStartsWith t "between" then
      match (pySplitWs t).get? 1, (pySplitWs t).get? 3 with
      | some a, some b =>
        initTokens u rest
          { r with min_val := some (pyStrip a), max_val := some (pyStrip b) }
      | _, _ => .error "IndexError"
    else if pyStartsWith t "greater than" then
      match (pySplitWs t).getLast? with
      | some a => initTokens u rest { r with min_val := some a }
      | none => .error "IndexError"
    else if pyStartsWith t "less than" then
      match (pySplitWs t).getLast? with
      | some a => initTokens u rest { r with max_val := some a }
      | none => .error "IndexError"
    else if pyStartsWith t "or" then
      match pySplitChar '"' t with
      | _ :: p1 :: p2 :: _ => do
        let inner := pySlice p2.toList (pyFind p2 "[" + 1) (pyFind p2 "]")
        let inner2 :=
          match u with
          | some uu => if uu ≠ "" then pySliceNeg inner uu.length else inner
          | none => inner
        let z ← pyIntOfChars inner2
        initTokens u rest
          { r with special_str := some p1, special_val := some z }
      | _ => .error "IndexError"
    else initTokens u rest r

/-- `Parameter.initialize` (source lines 2023–2062), as a function of the
parameter's current `value` text and the type-spec string `s`.  Exceptions
raised by `int(...)`, missing list elements, or `parse_number` propagate as
`Except.error`. -/
def paramInit (value : String) (s : String) : Except String InitResult :=
  match pySplitChar ',' s with
  | [] => .error "unreachable: split never returns an empty list"
  | ts :: rest => do
    let r0 : InitResult :=
      { type_str := ts, max_chars := 0, min_val := none, max_val := none,
        special_val := none, special_str := none, num_value := none,
        unit := none, out_unit := none, ndec := none }
    let r1 ← if pyStartsWith ts "string" then do
        match (pySplitWs ts).getLast? with
        | some lastTok => do
          let n ← pyIntOfChars (pyStripChars lastTok.toList)
          pure { r0 with max_chars := n, type_str := "string" }
        | none => Except.error "IndexError"
      else pure r0
    let step2 ← if r1.type_str = "float" ∨ r1.type_str = "integer" then
        match rest with
        | [] => Except.error "IndexError"
        | uTok :: rest2 => do
          let pr ← parse_number value
          pure ({ r1 with
                  unit := some (pyStrip uTok),
                  num_value := pr.1,
                  out_unit := some pr.2.1,
                  ndec := some pr.2.2 }, rest2)
      else pure (r1, rest)
    let r3 ← initTokens step2.1.unit step2.2 step2.1
    if (r3.type_str = "float" ∨ r3.type_str = "integer")
        ∧ r3.num_value = none then
      if some value = r3.special_str then
        pure { r3 with
               num_value := r3.special_val.map PyNum.i,
               out_unit := r3.unit }
      else pure r3
    else pure r3

/-! ## The `Logger` polling-tick state machine

The `Logger` class's crawl/scheduler state (source lines 2655–3218) is
embedded as explicit state passing: mutable attributes become fields of
`LoggerState`, `self.write(text)` appends to a `written` log,
`target.read(...)` callbacks append to an `events` log, and each
`parse_*` method becomes a function `LoggerState → LoggerState`.  A
Python exception that no code catches (only ever on states unreachable
through the public entry points) sets the `crashed` flag. -/

/-- Python `needle in hay` on strings. -/
def py_in (needle hay : String) : Bool :=
  hay.toList.tails.any (needle.toList.isPrefixOf ·)

/-- Python `str.lower()` (ASCII data here). -/
def pyLower (s : String) : String := ⟨s.toList.map Char.toLower⟩

/-- Python `str.endswith`. -/
def pyEndsWith (s suffix : String) : Bool :=
  suffix.toList.reverse.isPrefixOf s.toList.reverse

/-- Which parser the polling tick dispatches to (`Logger.read_func`).
`idle` is `parse_idle`, the terminal resting state entered by
`parse_halt`. -/
inductive RFunc where
  | idle
  | logo
  | configfile
  | configuremenu
  | mainmenu
  | submenus
  | requeststack
  | readreq
  | writereq
deriving DecidableEq, Repr

/-- The target slot of a request: Python `None`, a consumer object
(identified by an opaque handle), or — for write requests — the payload
string that `parse_write_request` sends in its second step. -/
inductive RTarget where
  | none
  | obj (id : ℕ)
  | msg (s : String)
deriving DecidableEq, Repr

/-- The type tag of a request (`request[5]`). -/
inductive RType where
  | read
  | transmit
  | write
deriving DecidableEq, Repr

/-- One entry of `request_stack`:
`[target, ident, start, end, stop, type]` (source line 3089).  `rend` is
the Python slot `end` (Lean keyword): `true` means send `'h'` on
completion. -/
structure Request where
  target : RTarget
  ident : Option String
  start : List String
  rend : Bool
  stop : Option (List String)
  rtype : RType
deriving DecidableEq, Repr

/-- A delivered `target.read(ident, lines, success)` callback. -/
structure ReadEvent where
  target : RTarget
  ident : Option String
  lines : List String
  success : Bool
deriving DecidableEq, Repr

/-! ### Menu dicts and the `Parameter` selection parser

Python's menu dicts become association lists in insertion order
(`dictInsert` overwrites an existing key in place, exactly as a dict
assignment does); iterators over `dict.items()` become the lists of their
remaining items.  The snapshot is faithful because the crawl mutates an
entry only after its iterator has yielded it and never changes a key set
that is still being iterated; the in-place updates that the aliased tree
behind `self.menu` receives through `menu_item` are read again only by
the GUI construction of `init_menu` (presentation), which is modelled
only through its `menu.pop('Help')`. -/

/-- One value of a menu dict: a submenu `(num, 'menu', {...})`, a textual
parameter `[num, 'param', value]`, the `Parameter` object that
`parse_submenus` installs into that list's value slot (source line 2991),
or an action `(num, 'action')` (source lines 2895–2912). -/
inductive MenuEntry where
  | submenu (num : String) (sub : List (String × MenuEntry))
  | param (num : String) (value : String)
  | pobj (num : String) (ids : List (Option String)) (name : String)
         (value : String) (r : InitResult)
         (selection : List (Option String × String))
  | action (num : String)
deriving Repr

/-- A menu dict in insertion order. -/
abbrev Menu := List (String × MenuEntry)

/-- `menu[name] = v` on an insertion-ordered dict: overwrite an existing
key in place, else append. -/
def dictInsert (m : Menu) (k : String) (v : MenuEntry) : Menu :=
  if m.any (fun p => p.1 = k) then
    m.map (fun p => if p.1 = k then (k, v) else p)
  else m ++ [(k, v)]

/-- `dict.update(other)`: one insertion per key of `other`, in order. -/
def dictUpdate : Menu → Menu → Menu
  | m, [] => m
  | m, (k, v) :: rest => dictUpdate (dictInsert m k v) rest

/-- `dict.pop(k)` guarded by `k in dict`, i.e. plain removal. -/
def dictRemove (m : Menu) (k : String) : Menu :=
  m.filter (fun p => p.1 ≠ k)

/-- `menu_item[0]`: the menu id of an entry. -/
def MenuEntry.num : MenuEntry → String
  | .submenu n _ => n
  | .param n _ => n
  | .pobj n _ _ _ _ _ => n
  | .action n => n

/-- `menu_item[1]`: the kind tag of an entry (the installed `Parameter`
replaces only the value slot of its `[num, 'param', value]` list, so the
tag stays `'param'`). -/
def MenuEntry.tag : MenuEntry → String
  | .submenu _ _ => "menu"
  | .param _ _ => "param"
  | .pobj _ _ _ _ _ _ => "param"
  | .action _ => "action"

/-- Python `str.rstrip()`. -/
def pyRstrip (s : String) : String :=
  ⟨(s.toList.reverse.dropWhile isPySpace).reverse⟩

/-- One line of `Parameter.set_selection` (source lines 2066–2073): drop
the four-column indent, then split off a `"num) "` head when the part
before `') '` is a nonempty digit run (`''.isdigit()` is `False`; the
text here is ASCII). -/
def selLine (l : String) : Option String × String :=
  let sel := l.toList.drop 4
  let i := pyFind ⟨sel⟩ ") "
  if 0 ≤ i ∧ pySlice sel 0 i ≠ [] ∧ (pySlice sel 0 i).all Char.isDigit = true
  then (some ⟨pySlice sel 0 i⟩, ⟨sel.drop (i.toNat + 2)⟩)
  else (none, ⟨sel⟩)

/-- `Parameter.set_selection` (source lines 2064–2073). -/
def set_selection (stream : List String) : List (Option String × String) :=
  stream.map selLine

/-- The mutable state of `Logger` relevant to the crawl banner and the
request scheduler (source lines 2655–2677), plus observation logs:
`written` records every `self.write(text)` in order, `events` every
`target.read(...)` delivery, `msg` the message label text, `askAnswers` an
oracle of future confirmation-dialog answers, and `crashed` marks a tick in
which Python would raise an uncaught exception. -/
structure LoggerState where
  input : List String
  read_count : ℕ
  read_state : ℕ
  read_func : RFunc
  request_stack : List Request
  request_block : Bool
  request_type : Option RType
  request_target : RTarget
  request_ident : Option String
  request_start : Option (List String)
  request_end : Bool
  request_stop : Option (List String)
  request_stop_index : Option ℕ
  written : List String
  events : List ReadEvent
  msg : Option String
  logoText : Option String
  softwareinfo : Option (List String)
  askAnswers : List Bool
  crashed : Bool
  menu : Option Menu
  menuIter : List Menu
  menuIds : List (Option String)
  menuKey : Option String
  menuItem : Option MenuEntry
  configFileLabel : Option String
  configStatus : Option Bool
  loggerActsConfigFile : Option String
deriving Repr

/-- The backward walk of `parse_halt` (source lines 2808–2810): from index
`k - 1` (the argument here is `k`, zero standing for Python's `j = -1`),
skip empty lines; Python's negative indexing makes `input[-1]` the last
line when the walk falls off the front. -/
def walkBack (inp : List String) : ℕ → String
  | 0 => inp.getLastD ""
  | n + 1 => if (inp.getD n "").length = 0 then walkBack inp n
             else inp.getD n ""

/-- `parse_halt` (source lines 2806–2813): surface `"Logger halted"` plus
the last non-empty line before index `k`, and rest in `parse_idle`. -/
def parse_halt (s : LoggerState) (k : ℕ) : LoggerState :=
  { s with
    msg := some ("Logger halted\n" ++ walkBack s.input k),
    read_func := .idle }

/-- The logo-text join of `parse_logo` (source lines 2834–2840): skip
blank lines, join with newlines. -/
def logoJoin (lines : List String) : String :=
  lines.foldl
    (fun acc l =>
      if (pyStrip l).length = 0 then acc
      else if acc.length > 0 then acc ++ "\n" ++ l
      else acc ++ l) ""

/-- The banner conclusion of `parse_logo` (source lines 2831–2850): with
both title markers found, store logo/software info, consume the banner
and move to `parse_configfile`; otherwise count idle polls and reboot
after 100. -/
def logoFinish (s : LoggerState) (ts tm te : Option ℕ) : LoggerState :=
  match ts, te with
  | some ts0, some te0 =>
    let s1 :=
      match tm with
      | some tm0 =>
        { s with logoText := some (logoJoin ((s.input.take tm0).drop (ts0 + 1))) }
      | none => s
    let ts1 := match tm with
      | some tm0 => tm0 - 1
      | none => ts0
    { s1 with
      softwareinfo := some ((s1.input.take te0).drop (ts1 + 1)),
      input := s1.input.drop (te0 + 1),
      read_func := .configfile }
  | _, _ =>
    if s.read_count > 100 then
      { s with read_count := 0, written := s.written ++ ["reboot"] }
    else { s with read_count := s.read_count + 1 }

/-- The scan loop of `parse_logo` (source lines 2819–2830): a line holding
`HALT` short-circuits to `parse_halt` at its index; otherwise remember the
banner markers (a line starting with twenty `=`, an author line holding
`" by "`, a line starting with twenty `-`). -/
def logoLoop (s : LoggerState) :
    List String → ℕ → Option ℕ → Option ℕ → Option ℕ → LoggerState
  | [], _, ts, tm, te => logoFinish s ts tm te
  | l :: rest, k, ts, tm, te =>
    if py_in "HALT" l then parse_halt s k
    else if l.toList.take 20 = List.replicate 20 '=' then
      logoLoop s rest (k + 1) (some k) tm te
    else if ts.isSome && py_in " by " l then
      logoLoop s rest (k + 1) ts (some k) te
    else if ts.isSome && l.toList.take 20 = List.replicate 20 '-' then
      logoLoop s rest (k + 1) ts tm (some k)
    else logoLoop s rest (k + 1) ts tm te

/-- `parse_logo` (source lines 2815–2850). -/
def parse_logo (s : LoggerState) : LoggerState :=
  logoLoop s s.input 0 none none none

/-- `Logger.ask` (source lines 2725–2744): the modal confirmation dialog —
clear the input, then write `'y'` or `'n'` per the answer drawn from the
oracle.  (The dialog text built from the stream is presentation only.) -/
def ask (s : LoggerState) : LoggerState :=
  { s with
    input := [],
    askAnswers := s.askAnswers.tail,
    written := s.written ++ [if s.askAnswers.headD false then "y" else "n"] }

/-- The priority scan of `AwaitStop` (source lines 3119–3124): stop markers
are tried in reverse index order; the first (highest-index) substring hit
wins. -/
def lookupStop (stops : List String) (line : String) : Option ℕ :=
  (List.range stops.length).reverse.find? fun k =>
    py_in (stops.getD k "") line

/-- Does the request identifier start with `"run"` (source line 3125)?
A `None` identifier would raise `TypeError` in Python; read/transmit
submissions always carry a string, so the `none` case is unreachable and
modelled as `false`. -/
def identRun : Option String → Bool
  | some i => i.toList.take 3 = ['r', 'u', 'n']
  | none => false

/-- One tick of `parse_read_request` (source lines 3097–3152). -/
def parse_read_request_step (s : LoggerState) : LoggerState :=
  if s.read_state = 0 then
    match s.request_start with
    | some (t :: rest) =>
      let s1 := { s with input := [], written := s.written ++ [t] }
      if rest.length > 0 then
        { s1 with request_start := some rest, read_state := 4 }
      else
        { s1 with request_start := none, read_state := 1 }
    | _ => { s with crashed := true }
  else if s.read_state = 1 then
    let s1 :=
      if s.request_type = some .read ∧ s.input.length > 0 ∧
          pyEndsWith (pyLower (s.input.getLastD "")) " [y/n] " = true then
        { ask s with read_state := 1 }
      else if s.request_stop = none ∨ (s.request_stop.getD []).length = 0 then
        { s with read_state := s.read_state + 1 }
      else if s.input.length > 0 then
        let ll0 := pyLower (s.input.getLastD "")
        let ll := if (pyStrip ll0).length = 0 ∧ s.input.length > 1 then
            pyLower (s.input.getD (s.input.length - 2) "")
          else ll0
        match lookupStop (s.request_stop.getD []) ll with
        | some k =>
          { s with request_stop := none, request_stop_index := some k,
                   read_state := s.read_state + 1 }
        | none => s
      else s
    if identRun s1.request_ident = true ∧ s1.request_target ≠ .none ∧
        s1.request_stop_index ≠ some 0 then
      { s1 with events := s1.events ++
          [⟨s1.request_target, s1.request_ident, s1.input,
            s1.request_stop_index == some 0⟩] }
    else s1
  else if s.read_state = 2 then
    let s1 :=
      if s.request_target ≠ .none then
        { s with
          events := s.events ++
            [⟨s.request_target, s.request_ident, s.input,
              s.request_stop_index == some 0⟩],
          request_target := .none }
      else s
    let s2 :=
      if s1.request_type = some .transmit ∧ s1.request_stop_index = some 1
      then { s1 with written := s1.written ++ ["keepthevalue"] }
      else s1
    { s2 with read_state := s2.read_state + 1 }
  else if s.read_state = 3 then
    let s1 := { s with input := [] }
    let s2 := if s1.request_end
      then { s1 with written := s1.written ++ ["h"] }
      else s1
    { s2 with request_type := none, read_func := .requeststack }
  else if s.read_state = 4 then
    let stop_str :=
      if s.request_type = some .transmit ∧ (s.request_start.getD []).length = 1
      then "new value" else "select"
    if s.input.length > 0 ∧ py_in stop_str (pyLower (s.input.getLastD "")) = true
    then { s with read_state := 0 }
    else s
  else s

/-- One tick of `parse_write_request` (source lines 3163–3182).  In the
payload step the `target` slot holds the message string; any other shape
would make Python's `write` raise, and is unreachable. -/
def parse_write_request_step (s : LoggerState) : LoggerState :=
  if s.read_state = 0 then
    match s.request_start with
    | some (t :: rest) =>
      { s with input := [], written := s.written ++ [t],
               request_start := some rest }
    | some [] =>
      { s with input := [], request_start := none,
               read_state := s.read_state + 1 }
    | none => { s with crashed := true }
  else if s.read_state = 1 then
    match s.request_target with
    | .msg m =>
      { s with input := [], written := s.written ++ [m],
               request_target := .none, read_state := s.read_state + 1 }
    | _ => { s with crashed := true }
  else if s.read_state = 2 then
    let s1 := { s with input := [] }
    let s2 := if s1.request_end
      then { s1 with written := s1.written ++ ["h"] }
      else s1
    { s2 with request_type := none, read_func := .requeststack }
  else s

/-- `parse_request_stack` (source lines 3050–3071): with an empty queue,
lift the block once no command is active; otherwise pop the head request,
load its slots, and immediately run the first step of its sub-machine.
(Python tuple-wraps a bare non-list `stop`; every submission modelled here
already carries a list or `None`, and a write's `None` stop is never
scanned because writes run the write machine.) -/
def parse_request_stack (s : LoggerState) : LoggerState :=
  match s.request_stack with
  | [] => if s.request_type = none then { s with request_block := false } else s
  | req :: rest =>
    let s1 :=
      { s with
        input := [],
        request_stack := rest,
        request_target := req.target,
        request_ident := req.ident,
        request_start := some req.start,
        request_end := req.rend,
        request_stop := req.stop,
        request_stop_index := none,
        request_type := some req.rtype,
        read_state := 0,
        read_func := if req.rtype = .write then .writereq else .readreq }
    if req.rtype = .write then parse_write_request_step s1
    else parse_read_request_step s1

/-- `Logger.read_request` (source lines 3073–3091): ignore an empty token
list; drop a duplicate of `(target, ident, act)` already queued; strip a
trailing `STAY` sentinel, marking the request sticky (no unwind) and
raising the submission block; append unless blocked; dispatch at once when
the scheduler is idle. -/
def read_request (s : LoggerState) (target : RTarget) (ident : Option String)
    (start : List String) (stop : Option (List String)) (act : RType) :
    LoggerState :=
  if start.length = 0 then s
  else if s.request_stack.any fun req =>
      req.target == target && req.ident == ident && req.rtype == act then s
  else
    let isStay := start.getLastD "" == "STAY"
    let block := if isStay then false else s.request_block
    let start1 := if isStay then start.dropLast else start
    let rend := if isStay then false else true
    let s1 := if isStay then { s with request_block := true } else s
    let s2 :=
      if !block then
        { s1 with request_stack := s1.request_stack ++
            [⟨target, ident, start1, rend, stop, act⟩] }
      else s1
    if s2.read_func = .requeststack then parse_request_stack s2 else s2

/-- `Logger.transmit_request` (source lines 3093–3095). -/
def transmit_request (s : LoggerState) (target : RTarget)
    (ident : Option String) (start : List String) : LoggerState :=
  read_request s target ident start (some ["select", "new value"]) .transmit

/-- `Logger.write_request` (source lines 3154–3161): ignore an empty token
list; append — with no duplicate check — unless blocked; dispatch at once
when the scheduler is idle. -/
def write_request (s : LoggerState) (msgText : String)
    (start : List String) : LoggerState :=
  if start.length = 0 then s
  else
    let s1 :=
      if !s.request_block then
        { s with request_stack := s.request_stack ++
            [⟨.msg msgText, none, start, true, none, .write⟩] }
      else s
    if s1.read_func = .requeststack then parse_request_stack s1 else s1

/-- The quiescent scheduler state after the crawl has finished: empty
buffers and queue, no active command, the tick resting in
`parse_request_stack` (source lines 2655–2677 and 2944–2947). -/
def initState : LoggerState :=
  { input := [], read_count := 0, read_state := 0,
    read_func := .requeststack, request_stack := [],
    request_block := false, request_type := none, request_target := .none,
    request_ident := none, request_start := none, request_end := true,
    request_stop := none, request_stop_index := none, written := [],
    events := [], msg := none, logoText := none, softwareinfo := none,
    askAnswers := [], crashed := false, menu := some [], menuIter := [],
    menuIds := [], menuKey := none, menuItem := none,
    configFileLabel := none, configStatus := none,
    loggerActsConfigFile := none }

/-- Index of the first buffered line containing `HALT`. -/
def firstHalt : List String → Option ℕ
  | [] => none
  | l :: rest =>
    if py_in "HALT" l then some 0 else (firstHalt rest).map (· + 1)

/-- First hit of the `parse_configfile` scan (source lines 2853–2868):
the earliest line announcing the configuration file or reporting a
missing sd card, each line tried for the file announcement first. -/
inductive ConfigHit where
  | file (k : ℕ) (line : String)
  | sdcard (k : ℕ)
deriving DecidableEq, Repr

/-- The scan loop of `parse_configfile` (source lines 2853–2868). -/
def configScan : List String → ℕ → Option ConfigHit
  | [], _ => none
  | l :: rest, k =>
    if py_in "configuration file \"" (pyLower l) then some (.file k l)
    else if py_in "! error: no sd card present" (pyLower l) then
      some (.sdcard k)
    else configScan rest (k + 1)

/-- The inner loop of `parse_configfile` (source lines 2860–2863): cut
the buffer down to its first blank line, keeping the whole buffer when no
line is blank. -/
def configSeekBlankAux (orig : List String) : List String → List String
  | [] => orig
  | l :: rest =>
    if (pyStrip l).length = 0 then l :: rest
    else configSeekBlankAux orig rest

/-- `self.input[k:]` at the first blank line `k`, the full buffer when
none is blank. -/
def configSeekBlank (inp : List String) : List String :=
  configSeekBlankAux inp inp

/-- `Logger.parse_configfile` (source lines 2852–2869): scan for the
configuration-file announcement or the sd card error — and for nothing
else, in particular not for `HALT` — and always leave the tick in
`configure_menu`.  (A matching line always holds a `'"'`, so the `[1]`
index of its quote split cannot fault.) -/
def parse_configfile (s : LoggerState) : LoggerState :=
  let s1 :=
    match configScan s.input 0 with
    | some (.file k l) =>
      let cf := pyStrip ((pySplitChar '\"' l).getD 1 "")
      { s with
        configFileLabel := some ("<b>" ++ cf ++ "</b>"),
        configStatus := some (!(py_in "not found" l)),
        loggerActsConfigFile := some cf,
        input := configSeekBlank (s.input.drop (k + 1)) }
    | some (.sdcard k) =>
      { s with configStatus := some false, input := s.input.drop (k + 1) }
    | none => s
  { s1 with read_func := .configuremenu }

/-- `Logger.configure_menu` (source lines 2871–2878): two setup writes,
then hand the tick to `parse_mainmenu`; no `HALT` check. -/
def configure_menu (s : LoggerState) : LoggerState :=
  if s.read_state = 0 then
    { s with written := s.written ++ ["detailed on"],
             read_state := s.read_state + 1 }
  else if s.read_state = 1 then
    { s with written := s.written ++ ["echo off"],
             read_state := 0, read_func := .mainmenu }
  else s

/-- The scan loop of `parse_menu` (source lines 2883–2891): a line
holding `HALT` short-circuits at its index; otherwise the markers
remember the last line holding `title_str + ':'` and the last `Select`
line once a start marker exists. -/
def menuScan (title : String) :
    List String → ℕ → Option ℕ → Option ℕ → ℕ ⊕ (Option ℕ × Option ℕ)
  | [], _, ms, me => .inr (ms, me)
  | l :: rest, k, ms, me =>
    if py_in "HALT" l then .inl k
    else if py_in (title ++ ":") l then menuScan title rest (k + 1) (some k) me
    else if ms.isSome && py_in "Select" l then
      menuScan title rest (k + 1) ms (some k)
    else menuScan title rest (k + 1) ms me

/-- One line of the menu-dict build (source lines 2895–2912): a blank
line makes `x[0]` raise `IndexError` (`none` here); otherwise the first
token minus its trailing character is the menu id, a trailing `'...'`
token marks a submenu, a `':'` in the joined rest a parameter (split on
`':'`, so only the piece before a second colon survives as the value),
anything else an action. -/
def menuLine (menu : Menu) (l : String) : Option Menu :=
  match pySplitWs l with
  | [] => none
  | x0 :: xs =>
    let num : String := ⟨x0.toList.dropLast⟩
    if xs.getLastD x0 = "..." then
      some (dictInsert menu (String.intercalate " " xs.dropLast)
        (.submenu num []))
    else
      let l2 := String.intercalate " " xs
      if py_in ":" l2 then
        let parts := pySplitChar ':' l2
        some (dictInsert menu (pyStrip (parts.getD 0 ""))
          (.param num (pyStrip (parts.getD 1 ""))))
      else some (dictInsert menu l2 (.action num))

/-- The menu-dict build over the lines between the markers. -/
def menuBuild : Menu → List String → Option Menu
  | menu, [] => some menu
  | menu, l :: rest =>
    match menuLine menu l with
    | none => none
    | some m => menuBuild m rest

/-- `Logger.parse_menu` (source lines 2880–2914).  The second component
is the Python return value — `some none` a returned `None` (the `HALT`
path), `some (some m)` a returned dict — while `none` marks a raised
exception: `IndexError` on a blank line between the markers, or the
`TypeError` of `None + ':'` when the caller's `menu_key` is still `None`
(then only a `HALT` in the very first line is noticed, since the per-line
`HALT` test precedes the marker test). -/
def parse_menu (s : LoggerState) (title : Option String) :
    LoggerState × Option (Option Menu) :=
  match title with
  | none =>
    match s.input with
    | [] => (s, some (some []))
    | l :: _ =>
      if py_in "HALT" l then (parse_halt s 0, some none)
      else ({ s with crashed := true }, none)
  | some t =>
    match menuScan t s.input 0 none none with
    | .inl k => (parse_halt s k, some none)
    | .inr (some ms, some me) =>
      match menuBuild [] ((s.input.take me).drop (ms + 1)) with
      | some m => ({ s with input := [] }, some (some m))
      | none => ({ s with crashed := true }, none)
    | .inr _ => (s, some (some []))

/-- `Logger.parse_mainmenu` (source lines 2916–2927).  In the second
state a buffered `HALT` makes `parse_menu` call `parse_halt` and return
`None`; the assignment leaves `self.menu = None`, and `len(self.menu)`
then raises an uncaught `TypeError` — after the tick has already been
rested in `parse_idle`. -/
def parse_mainmenu (s : LoggerState) : LoggerState :=
  if s.read_state = 0 then
    { s with input := [], written := s.written ++ ["print"],
             read_state := s.read_state + 1 }
  else if s.read_state = 1 then
    match parse_menu s (some "Menu") with
    | (s1, none) => s1
    | (s1, some none) => { s1 with menu := none, crashed := true }
    | (s1, some (some m)) =>
      if m.length > 0 then
        { s1 with menu := some m, menuIter := [m], menuIds := [none],
                  read_state := 0, read_func := .submenus }
      else { s1 with menu := some m }
  else s

/-- The marker scan of the parameter state (source lines 2972–2981): the
first line starting with the lowercased menu key sets `list_start` just
past it; the first other line holding `new value` and ending — after
`rstrip` — in `':'` sets `list_end`.  (A line whose lowercase holds
`new value` is nonempty after `rstrip`, so Python's `[-1]` cannot fault;
the `getLastD` default is unreachable.) -/
def paramListScan (key : String) :
    List String → ℕ → Option ℕ → Option ℕ → Option ℕ × Option ℕ
  | [], _, ls, le => (ls, le)
  | l :: rest, k, ls, le =>
    if ls = none ∧ pyStartsWith (pyLower l) (pyLower key) = true then
      paramListScan key rest (k + 1) (some (k + 1)) le
    else if le = none ∧ py_in "new value" (pyLower l) = true ∧
        (pyRstrip l).toList.getLastD ' ' = ':' then
      paramListScan key rest (k + 1) ls (some k)
    else paramListScan key rest (k + 1) ls le

/-- `Logger.parse_submenus` (source lines 2929–2993), the dict walk of
the crawl.  `menu_iter` holds each live iterator's remaining items (see
the section comment on dict snapshots).  The `exit()` guard of the first
state raises `SystemExit` past the `StopIteration` handler; shapes that
would make Python's indexing, `update`, or `parse_number` fault (a
`None` or non-parameter `menu_item`, a `menu_ids` shorter than
`menu_iter`) are `crashed` ticks, reachable only outside the crawl's own
entry points. -/
def parse_submenus (s : LoggerState) : LoggerState :=
  if s.read_state = 0 then
    match s.menuIter.getLast? with
    | none => { s with crashed := true }
    | some [] =>
      match s.menuIds.getLast? with
      | none => { s with menuIter := s.menuIter.dropLast, crashed := true }
      | some _ =>
        let iter1 := s.menuIter.dropLast
        if iter1.length = 0 then
          { s with menuIter := iter1, menuIds := s.menuIds.dropLast,
                   menu := s.menu.map (fun m => dictRemove m "Help"),
                   input := [], read_func := .requeststack }
        else
          { s with menuIter := iter1, menuIds := s.menuIds.dropLast,
                   written := s.written ++ ["q"] }
    | some ((key, item) :: restItems) =>
      let s1 :=
        { s with menuIter := s.menuIter.dropLast ++ [restItems],
                 menuKey := some key, menuItem := some item }
      match s.menuIds.getLast? with
      | none => { s1 with crashed := true }
      | some _ =>
        let s2 := { s1 with menuIds := s1.menuIds.dropLast ++ [some item.num] }
        if item.tag = "menu" then { s2 with read_state := 10 }
        else if item.tag = "param" then { s2 with read_state := 20 }
        else s2
  else if s.read_state = 10 then
    match s.menuItem with
    | some item =>
      { s with input := [], written := s.written ++ [item.num],
               read_state := s.read_state + 1 }
    | none => { s with crashed := true }
  else if s.read_state = 11 then
    if s.input.length > 1 ∧ py_in "Select" (s.input.getLastD "") = true then
      match parse_menu s s.menuKey with
      | (s1, none) => s1
      | (s1, some none) => { s1 with crashed := true }
      | (s1, some (some sub)) =>
        if sub.length > 0 then
          match s1.menuItem with
          | some (.submenu num cur) =>
            let updated := dictUpdate cur sub
            { s1 with menuItem := some (.submenu num updated),
                      menuIter := s1.menuIter ++ [updated],
                      menuIds := s1.menuIds ++ [none],
                      read_state := 0 }
          | _ => { s1 with crashed := true }
        else s1
    else s
  else if s.read_state = 20 then
    match s.menuItem with
    | some item =>
      { s with input := [], written := s.written ++ [item.num],
               read_state := s.read_state + 1 }
    | none => { s with crashed := true }
  else if s.read_state = 21 then
    match s.menuKey with
    | none => if s.input.length = 0 then s else { s with crashed := true }
    | some key =>
      match paramListScan key s.input 0 none none with
      | (some ls, some le) =>
        match s.menuItem with
        | some (.param num value) =>
          let line := s.input.getD le ""
          let i := pyFind line "new value"
          let tl := pySlice line.toList i (line.toList.length : ℤ)
          let a := i + pyFind ⟨tl⟩ "(" + 1
          let b := pyFind line "):"
          match paramInit value ⟨pySlice line.toList a b⟩ with
          | .error _ => { s with crashed := true }
          | .ok r =>
            { s with
              menuItem := some (.pobj num s.menuIds key value r
                (set_selection ((s.input.take le).drop ls))),
              written := s.written ++ ["keepthevalue"],
              read_state := 0 }
        | _ => { s with crashed := true }
      | _ => s
  else s

/-! ## `Parameter.set_value` / `Parameter.verify`

The edit widgets built by `Parameter.setup` are modelled as plain state:
a checkbox holds a boolean, a non-editable combo box its items and the
current index, the custom `SpinBox` of this source file (lines 1892–1994)
its decimals/suffix/value and the rendered line-edit text, a line edit its
maximum length and text.  The locale is modelled as the C/English locale:
decimal point `'.'` (so `replace(decimalPoint, '.')` is the identity) and
group separator `','` (so `replace(groupSeparator, '')` removes commas).
Python's `1e-6`/`1e-8` tolerances are the exact rationals. -/

/-- The truth-word test of boolean parameters (source lines 2078, 2169,
2205): `text.lower() in ['yes', 'on', 'true', 'ok', '1']`. -/
def pyTruth (text : String) : Bool :=
  (["yes", "on", "true", "ok", "1"] : List String).contains (pyLower text)

/-- Python truthiness of an optional string (`if self.out_unit:`). -/
def truthyOpt : Option String → Bool
  | some u => !u.isEmpty
  | none => false

/-- `s.replace(locale.groupSeparator(), '').replace(locale.decimalPoint(),
'.')` in the C locale: drop commas. -/
def localeNormalize (s : String) : String :=
  ⟨s.toList.filter (fun c => c != ',')⟩

/-- `abs(value - svalue) < tol` on parse results; `None` on either side
raises `TypeError`. -/
def pyAbsLt (a b : Option PyNum) (tol : ℚ) : Except String Bool :=
  match a, b with
  | some x, some y => .ok (decide (|x.val - y.val| < tol))
  | _, _ => .error "TypeError"

/-- `change_unit` applied to a possibly-`None` value (source line 2194):
the empty-unit guards return the value unchanged, the scaling path raises
`TypeError` on `None`. -/
def change_unitOpt (v : Option PyNum) (old_unit new_unit : String) :
    Except String (Option PyNum) :=
  if old_unit.isEmpty && new_unit.isEmpty then .ok v
  else if old_unit.isEmpty && new_unit != "%" then .ok v
  else if new_unit.isEmpty && old_unit != "%" then .ok v
  else match v with
    | some x => .ok (some (.f (x.val * resolveFactor old_unit
        / resolveFactor new_unit)))
    | none => .error "TypeError"

/-- Round half to even (the rounding of Python `format`, applied here to
the exact rational). -/
def rhe (q : ℚ) : ℤ :=
  let f := ⌊q⌋
  if q - f < 1 / 2 then f
  else if q - f > 1 / 2 then f + 1
  else if f % 2 = 0 then f else f + 1

/-- Python `f'{value:.{d}f}'` on the exact rational: fixed-point with `d`
decimals, round half to even, a `'-'` sign for negative input. -/
def pyFormatFixed (q : ℚ) (d : ℕ) : String :=
  let n := rhe (q * 10 ^ d)
  let sign := if q < 0 ∨ n < 0 then "-" else ""
  let ds0 := Nat.toDigits 10 n.natAbs
  let ds := if ds0.length < d + 1
    then List.replicate (d + 1 - ds0.length) '0' ++ ds0 else ds0
  if d = 0 then sign ++ (⟨ds⟩ : String)
  else sign ++ (⟨ds.take (ds.length - d)⟩ : String) ++ "."
    ++ (⟨ds.drop (ds.length - d)⟩ : String)

/-- An edit widget as built by `Parameter.setup`: a checkbox, a
non-editable combo box, the custom `SpinBox` of this source (decimals,
suffix, value, rendered line-edit text), or a line edit. -/
inductive Widget where
  | checkbox (checked : Bool)
  | combo (items : List String) (idx : Option ℕ)
  | fspin (decimals : ℕ) (suffix : String) (value : ℚ) (ltext : String)
  | lineedit (maxLen : ℕ) (text : String)
deriving DecidableEq, Repr

/-- `QComboBox.currentText()`: the item at the current index, the empty
string with no current index. -/
def comboCurrentText (items : List String) (idx : Option ℕ) : String :=
  match idx with
  | some i => items.getD i ""
  | none => ""

/-- `QComboBox.setCurrentText` on a non-editable box: select the first
exactly matching item, else leave the index unchanged. -/
def comboSetCurrentText (items : List String) (idx : Option ℕ)
    (text : String) : Option ℕ :=
  match items.findIdx? (fun x => x == text) with
  | some i => some i
  | none => idx

/-- `SpinBox.setValue` (source lines 1945–1951): store the value and
render `f'{value:.{decimals}f}'` plus the unit suffix into the line
edit. -/
def fspinSetValue (d : ℕ) (suffix : String) (q : ℚ) : Widget :=
  .fspin d suffix q (pyFormatFixed q d ++ suffix)

/-- The fields of a `Parameter` that `set_value`/`verify` read. -/
structure PState where
  type_str : String
  out_unit : Option String
  special_val : Option ℤ
  special_str : Option String
  selection : List (Option String × String)
deriving DecidableEq, Repr

/-- The selection-matching loop of `set_value` (source lines 2210–2214):
the first label whose parsed value is within `1e-8` and whose unit agrees;
a `None` on either side of the comparison raises `TypeError`. -/
def comboFindMatch : List (Option String × String) → Option PyNum →
    String → ℕ → Except String (Option ℕ)
  | [], _, _, _ => .ok none
  | sel :: rest, v, u, i => do
    let spr ← parse_number sel.2
    let b ← pyAbsLt v spr.1 (1 / 10 ^ 8)
    if b && (u == spr.2.1) then .ok (some i)
    else comboFindMatch rest v u (i + 1)

/-- `Parameter.verify` (source lines 2166–2201), with the state-widget
display calls made explicit.  A widget whose shape does not fit the
parameter's branch would raise `AttributeError` in Python. -/
def verify (p : PState) (w : Widget) (text : String) :
    Except String Bool :=
  if p.type_str = "boolean" then
    match w with
    | .checkbox c => .ok (pyTruth text == c)
    | _ => .error "AttributeError"
  else if p.selection.length > 0 then
    if p.type_str = "integer" ∨ p.type_str = "float" then do
      let pr ← parse_number text
      match w with
      | .combo items idx => do
        let spr ← parse_number (localeNormalize (comboCurrentText items idx))
        let b ← pyAbsLt pr.1 spr.1 (1 / 10 ^ 6)
        .ok (b && (pr.2.1 == spr.2.1))
      | _ => .error "AttributeError"
    else
      match w with
      | .combo items idx => .ok (comboCurrentText items idx == text)
      | _ => .error "AttributeError"
  else if p.type_str = "integer" ∨ p.type_str = "float" then do
    let pr ← parse_number text
    let value := if pr.1 = none ∧ some text = p.special_str
      then p.special_val.map PyNum.i else pr.1
    match w with
    | .fspin _ _ _ ltext => do
      let s := localeNormalize ltext
      let spr ← parse_number s
      let svalue0 := if spr.1 = none ∧ some s = p.special_str
        then p.special_val.map PyNum.i else spr.1
      let svalue ← if truthyOpt p.out_unit
        then change_unitOpt svalue0 spr.2.1 pr.2.1
        else pure svalue0
      pyAbsLt value svalue (1 / 10 ^ 6)
    | _ => .error "AttributeError"
  else if p.type_str = "string" then
    match w with
    | .lineedit _ t => .ok (t == text)
    | _ => .error "AttributeError"
  else .ok true

/-- `Parameter.set_value` (source lines 2203–2224): update the edit widget
from the device text, then `verify(text)`; returns the new widget state
and the resulting `matches` flag. -/
def set_value (p : PState) (w : Widget) (text : String) :
    Except String (Widget × Bool) := do
  let w1 ←
    if p.type_str = "boolean" then
      match w with
      | .checkbox _ => pure (Widget.checkbox (pyTruth text))
      | _ => Except.error "AttributeError"
    else if p.selection.length > 0 then
      if p.type_str = "integer" ∨ p.type_str = "float" then do
        let pr ← parse_number text
        match w with
        | .combo items idx => do
          match ← comboFindMatch p.selection pr.1 pr.2.1 0 with
          | some i => pure (Widget.combo items (some i))
          | none => pure (Widget.combo items idx)
        | _ => Except.error "AttributeError"
      else
        match w with
        | .combo items idx =>
          pure (Widget.combo items (comboSetCurrentText items idx text))
        | _ => Except.error "AttributeError"
    else if p.type_str = "integer" ∨ p.type_str = "float" then do
      let pr ← parse_number text
      let value := if pr.1 = none ∧ some text = p.special_str
        then p.special_val.map PyNum.i else pr.1
      match w with
      | .fspin d suffix _ _ =>
        match value with
        | some v => pure (fspinSetValue d suffix v.val)
        | none => Except.error "TypeError: format"
      | _ => Except.error "AttributeError"
    else if p.type_str = "string" then
      match w with
      | .lineedit maxLen _ =>
        pure (Widget.lineedit maxLen (⟨text.toList.take maxLen⟩ : String))
      | _ => Except.error "AttributeError"
    else pure w
  let b ← verify p w1 text
  return (w1, b)

theorem specLeadingRun_prefix (cs : List Char) :
    ∀ hp, specLeadingRun cs hp <+: cs := by
  induction cs with
  | nil => intro hp; simp [specLeadingRun]
  | cons c rest ih =>
    intro hp
    simp only [specLeadingRun]
    by_cases hdot : c = '.'
    · simp only [hdot, if_pos rfl]
      by_cases hhp : hp
      · simp [hhp]
      · simp only [hhp, if_neg]
        exact (List.cons_prefix_cons.mpr ⟨rfl, ih true⟩)
    · simp only [if_neg hdot]
      by_cases hc : pnChar c
      · simp only [hc, if_pos]
        exact (List.cons_prefix_cons.mpr ⟨rfl, ih hp⟩)
      · simp [hc]

/-- The index-based scan of `parse_number` computes the spec's leading run:
the cut index is the run's length, `have_point` records whether the run
holds a point, and `ip` points one past the run's first point. -/
theorem pnScan_eq (len : Nat) (cs : List Char) :
    ∀ (i : Nat) (hp : Bool) (ip : Nat), i + cs.length = len →
    pnScan len cs i hp ip =
      (i + (specLeadingRun cs hp).length,
       hp || (specLeadingRun cs hp).any (· == '.'),
       if hp then ip
       else if (specLeadingRun cs hp).any (· == '.') then
         i + ((specLeadingRun cs hp).takeWhile (· != '.')).length + 1
       else ip) := by
  induction cs with
  | nil =>
    intro i hp ip hlen
    simp only [List.length_nil, Nat.add_zero] at hlen
    simp [pnScan, specLeadingRun, hlen]
  | cons c rest ih =>
    intro i hp ip hlen
    simp only [List.length_cons] at hlen
    have hlen' : (i + 1) + rest.length = len := by omega
    by_cases hdot : c = '.'
    · subst hdot
      cases hp with
      | true => simp [pnScan, specLeadingRun]
      | false =>
        simp only [pnScan, specLeadingRun, if_pos rfl, Bool.false_eq_true,
          ite_false]
        rw [ih (i + 1) true (i + 1) hlen']
        simp
        omega
    · have hbne : (c == '.') = false := by simpa using hdot
      have htw : (c != '.') = true := by simpa [bne] using hdot
      by_cases hc : pnChar c
      · simp only [pnScan, specLeadingRun, if_neg hdot, hc, if_pos, ite_true]
        rw [ih (i + 1) hp ip hlen']
        simp only [Prod.mk.injEq, List.length_cons, List.any_cons, hbne,
          List.takeWhile_cons, htw, ite_true, Bool.false_or]
        refine ⟨by omega, by simp, ?_⟩
        cases hp with
        | true => simp
        | false =>
          simp only [Bool.false_eq_true, ite_false]
          by_cases hany : (specLeadingRun rest false).any (· == '.') = true
          · simp only [hany, ite_true, List.length_cons]
            omega
          · simp only [Bool.not_eq_true] at hany
            simp [hany]
      · simp [pnScan, specLeadingRun, if_neg hdot, hc]

/-- The characters of the run after its first point, counted two ways. -/
theorem decimals_count (run : List Char) (hany : run.any (· == '.') = true) :
    run.length - (((run.takeWhile (· != '.')).length) + 1)
      = ((run.dropWhile (· != '.')).drop 1).length := by
  have hsplit : run.takeWhile (· != '.') ++ run.dropWhile (· != '.') = run :=
    List.takeWhile_append_dropWhile _ run
  have hlen : (run.takeWhile (· != '.')).length
      + (run.dropWhile (· != '.')).length = run.length := by
    have h2 := congrArg List.length hsplit
    rw [List.length_append] at h2
    exact h2
  have hne : run.dropWhile (· != '.') ≠ [] := by
    intro hnil
    rw [List.dropWhile_eq_nil_iff] at hnil
    simp only [List.any_eq_true] at hany
    obtain ⟨x, hx, hbeq⟩ := hany
    have := hnil x hx
    simp [bne] at this
    exact this (by simpa using hbeq)
  have hpos : 0 < (run.dropWhile (· != '.')).length :=
    List.length_pos.mpr hne
  simp only [List.length_drop]
  omega

/-- `parse_number` conforms to the spec's description of it (with the
`ValueError` proviso): the index-based scan returns exactly the leading-run
decomposition. -/
theorem parse_number_eq_spec (s : String) :
    parse_number s = parse_number_spec s := by
  have hscan := pnScan_eq s.toList.length s.toList 0 false s.toList.length
    (by simp)
  have hscan2 : pnScan s.toList.length s.toList 0 false s.toList.length
      = ((specLeadingRun s.toList false).length,
         (specLeadingRun s.toList false).any (· == '.'),
         if (specLeadingRun s.toList false).any (· == '.') = true
         then ((specLeadingRun s.toList false).takeWhile (· != '.')).length + 1
         else s.toList.length) := by
    rw [hscan]; simp
  unfold parse_number parse_number_spec
  rw [hscan2]
  unfold pnFinish pnSpecFinish
  generalize hg : specLeadingRun s.toList false = run
  have hpre : run <+: s.toList := hg ▸ specLeadingRun_prefix s.toList false
  have htake : s.toList.take run.length = run :=
    (List.prefix_iff_eq_take.mp hpre).symm
  have hle : run.length ≤ s.toList.length := hpre.length_le
  dsimp only
  rw [htake]
  by_cases hnil : run = []
  · subst hnil; simp
  · have hlenpos : run.length ≠ 0 := by
      simpa [List.length_eq_zero] using hnil
    have hempty : ¬(run.isEmpty = true) := by
      simpa [List.isEmpty_iff] using hnil
    rw [if_neg hlenpos, if_neg hempty]
    by_cases hany : run.any (· == '.') = true
    · have hnd := decimals_count run hany
      simp only [hany, eq_self_iff_true, if_true, hnd]
    · have hanyf : run.any (· == '.') = false := by
        rw [Bool.eq_false_iff]; exact hany
      have hz : run.length - s.toList.length = 0 := Nat.sub_eq_zero_of_le hle
      simp only [hanyf, Bool.false_eq_true, if_false, hz]

/-- A fold that overwrites its accumulator at every element satisfying `p`
ends at the last such element (or at the initial value). -/
theorem foldl_overwrite {α β : Type} (p : α → Bool) (val : α → β) :
    ∀ (l : List α) (init : β),
      l.foldl (fun acc x => if p x then val x else acc) init
        = ((l.filter p).map val).getLastD init := by
  intro l
  induction l with
  | nil => intro init; simp
  | cons x xs ih =>
    intro init
    simp only [List.foldl_cons, List.filter_cons]
    by_cases hx : p x
    · simp only [hx, ite_true, List.map_cons, List.getLastD_cons]
      exact ih (val x)
    · simp only [hx, Bool.false_eq_true, ite_false]
      exact ih init

/-- C5 (corrected) counterexample: `parse_number "."` does not return a
triple at all — the leading run is `"."`, which `float(...)` rejects, so
the call raises `ValueError` instead of returning. -/
theorem parse_number_dot_raises :
    parse_number "." = Except.error "ValueError: float" := by rfl

/-- C5 (amended): for every string, `parse_number` behaves exactly as the
spec's description of the leading-run scan — with the proviso that a
nonempty run that is not a valid numeral raises `ValueError` — and the two
concrete examples of the spec hold. -/
theorem parse_number_spec_description :
    (∀ s : String, parse_number s = parse_number_spec s)
    ∧ parse_number "12.50mV"
        = Except.ok (some (PyNum.f (25 / 2)), "mV", 2)
    ∧ parse_number "abc" = Except.ok (none, "abc", 0) :=
  ⟨parse_number_eq_spec,
   by
    simp +decide [parse_number, pnFinish, pnScan, pyFloatOfChars, stripSign,
      digitsVal, pyStripChars, isPySpace, Except.map] <;> norm_num,
   by rfl⟩

/-- C6: `change_unit` returns the value unchanged when both units are
empty, or when exactly one is empty and the other is not the percent unit;
and the three concrete conversions of spec §8 hold. -/
theorem change_unit_empty_and_examples :
    (∀ v : ℚ, change_unit v "" "" = v)
    ∧ (∀ (v : ℚ) (u : String), u ≠ "%" → change_unit v "" u = v)
    ∧ (∀ (v : ℚ) (u : String), u ≠ "%" → change_unit v u "" = v)
    ∧ change_unit 5 "mm" "cm" = 1 / 2
    ∧ change_unit 12 "%" "" = 12 / 100
    ∧ change_unit 3600 "s" "h" = 1 := by
  refine ⟨?_, ?_, ?_,
    by simp +decide [change_unit, resolveFactor, lookupFactor, unit_factors,
        prefixFactor, unit_prefixes, List.find?] <;> norm_num,
    by simp +decide [change_unit, resolveFactor, lookupFactor, unit_factors,
        prefixFactor, unit_prefixes, List.find?] <;> norm_num,
    by simp +decide [change_unit, resolveFactor, lookupFactor, unit_factors,
        prefixFactor, unit_prefixes, List.find?] <;> norm_num⟩
  · intro v; rfl
  · intro v u h
    have hb : (u != "%") = true := bne_iff_ne.mpr h
    simp +decide [change_unit, hb]
  · intro v u h
    have hb : (u != "%") = true := bne_iff_ne.mpr h
    by_cases hu : u = ""
    · subst hu; rfl
    · have he : u.isEmpty = false := by
        rw [Bool.eq_false_iff]
        intro hc
        exact hu ((String.isEmpty_iff u).mp hc)
      simp +decide [change_unit, hb, he]

/-- Closed witness for `change_unit_empty_and_examples`. -/
theorem change_unit_empty_and_examples_witness :
    change_unit 7 "" "cm" = 7 ∧ change_unit 7 "cm" "" = 7 :=
  ⟨change_unit_empty_and_examples.2.1 7 "cm" (by decide),
   change_unit_empty_and_examples.2.2.1 7 "cm" (by decide)⟩

/-- C7 (corrected) counterexample: for the from-unit `"mus"` the code's
prefix loop keeps the factor of the LAST matching key in table order
(`"m"`, 1e-3), not of the longest matching prefix (`"mu"`, 1e-6): the
conversion yields `1/1000`, not the `1/1000000` the claim predicts. -/
theorem change_unit_mus_last_match :
    change_unit 1 "mus" "s" = 1 / 1000
      ∧ ((1 : ℚ) / 1000) ≠ 1 / 1000000 :=
  ⟨by
    simp +decide [change_unit, resolveFactor, lookupFactor, unit_factors,
      prefixFactor, unit_prefixes, List.find?] <;> norm_num,
   by norm_num⟩

/-- C7 (amended): a unit not in the exact-match table resolves to the
factor of the last (not longest) key of `unit_prefixes`, in table-iteration
order, that is a proper prefix of it, defaulting to `1`; for nonempty
units `change_unit` returns `value * factor(from) / factor(to)`; and for
`"mus"` the resulting factor is 1e-3, the factor of `"m"`. -/
theorem change_unit_last_prefix_match :
    (∀ u : String, lookupFactor unit_factors u = none →
        resolveFactor u = lastMatchFactor u)
    ∧ (∀ (v : ℚ) (o n : String), o.isEmpty = false → n.isEmpty = false →
        change_unit v o n = v * resolveFactor o / resolveFactor n)
    ∧ lastMatchFactor "mus" = 1 / 1000
    ∧ change_unit 1 "mus" "s" = 1 * resolveFactor "mus" / resolveFactor "s" := by
  refine ⟨?_, ?_,
    by simp +decide [lastMatchFactor, unit_prefixes] <;> norm_num,
    by simp +decide [change_unit]⟩
  · intro u hl
    unfold resolveFactor
    rw [hl]
    unfold prefixFactor lastMatchFactor
    exact foldl_overwrite _ _ unit_prefixes 1
  · intro v o n ho hn
    simp [change_unit, ho, hn]

/-- C8: `Parameter.initialize` takes the first comma token as the base
type and, for integer/float, the next as the unit; the remaining tokens
set bounds in any order or subset (`between A and B` both, `greater than A`
only the minimum, `less than B` only the maximum).  In particular the spec
`"integer,V,between 1 and 9"` yields type `integer`, unit `"V"`,
`min_val="1"`, `max_val="9"` — for every current value text whose parse
succeeds. -/
theorem paramInit_integer_V_between :
    (∀ (value : String) r, parse_number value = Except.ok r →
      ∃ res, paramInit value "integer,V,between 1 and 9" = Except.ok res
        ∧ res.type_str = "integer" ∧ res.unit = some "V"
        ∧ res.min_val = some "1" ∧ res.max_val = some "9")
    ∧ (∀ (value : String) r, parse_number value = Except.ok r →
      ∃ res, paramInit value "integer,V,greater than 2" = Except.ok res
        ∧ res.type_str = "integer" ∧ res.unit = some "V"
        ∧ res.min_val = some "2" ∧ res.max_val = none)
    ∧ (∀ (value : String) r, parse_number value = Except.ok r →
      ∃ res, paramInit value "integer,V,less than 7,greater than 2"
          = Except.ok res
        ∧ res.type_str = "integer" ∧ res.unit = some "V"
        ∧ res.min_val = some "2" ∧ res.max_val = some "7") := by
  refine ⟨?_, ?_, ?_⟩
  · intro value r h
    obtain ⟨rv, ru, rn⟩ := r
    have hmain : paramInit value "integer,V,between 1 and 9"
        = Except.ok
          { type_str := "integer",
            max_chars := 0,
            min_val := some "1",
            max_val := some "9",
            special_val := none,
            special_str := none,
            num_value := rv,
            unit := some "V",
            out_unit := some ru,
            ndec := some rn } := by
      rcases rv with _ | v <;>
        simp +decide [paramInit, initTokens, h, Except.bind, pyStartsWith,
          pySplitChar, splitChar, pySplitWs, pyStrip, pyStripChars,
          wordsStep, isPySpace] <;> rfl
    exact ⟨_, hmain, rfl, rfl, rfl, rfl⟩
  · intro value r h
    obtain ⟨rv, ru, rn⟩ := r
    have hmain : paramInit value "integer,V,greater than 2"
        = Except.ok
          { type_str := "integer",
            max_chars := 0,
            min_val := some "2",
            max_val := none,
            special_val := none,
            special_str := none,
            num_value := rv,
            unit := some "V",
            out_unit := some ru,
            ndec := some rn } := by
      rcases rv with _ | v <;>
        simp +decide [paramInit, initTokens, h, Except.bind, pyStartsWith,
          pySplitChar, splitChar, pySplitWs, pyStrip, pyStripChars,
          wordsStep, isPySpace] <;> rfl
    exact ⟨_, hmain, rfl, rfl, rfl, rfl⟩
  · intro value r h
    obtain ⟨rv, ru, rn⟩ := r
    have hmain : paramInit value "integer,V,less than 7,greater than 2"
        = Except.ok
          { type_str := "integer",
            max_chars := 0,
            min_val := some "2",
            max_val := some "7",
            special_val := none,
            special_str := none,
            num_value := rv,
            unit := some "V",
            out_unit := some ru,
            ndec := some rn } := by
      rcases rv with _ | v <;>
        simp +decide [paramInit, initTokens, h, Except.bind, pyStartsWith,
          pySplitChar, splitChar, pySplitWs, pyStrip, pyStripChars,
          wordsStep, isPySpace] <;> rfl
    exact ⟨_, hmain, rfl, rfl, rfl, rfl⟩

/-- Closed witness for `paramInit_integer_V_between`. -/
theorem paramInit_integer_V_between_witness :
    ∃ res, paramInit "5" "integer,V,between 1 and 9" = Except.ok res
      ∧ res.type_str = "integer" ∧ res.unit = some "V"
      ∧ res.min_val = some "1" ∧ res.max_val = some "9" :=
  paramInit_integer_V_between.1 "5" (some (PyNum.i 5), "", 0) (by rfl)

/-- Closed witness for `change_unit_last_prefix_match`. -/
theorem change_unit_last_prefix_match_witness :
    resolveFactor "mus" = lastMatchFactor "mus"
      ∧ change_unit 2 "mm" "cm" = 2 * resolveFactor "mm" / resolveFactor "cm" :=
  ⟨change_unit_last_prefix_match.1 "mus" (by decide),
   change_unit_last_prefix_match.2.1 2 "mm" "cm" (by decide) (by decide)⟩

/-- C10: a submission — read, transmit, or write — whose start-token list
is empty is silently ignored: the scheduler state (queue, written bytes,
everything) is returned unchanged. -/
theorem empty_submission_ignored :
    (∀ (s : LoggerState) (t : RTarget) (i : Option String)
        (stop : Option (List String)) (act : RType),
      read_request s t i [] stop act = s)
    ∧ (∀ (s : LoggerState) (t : RTarget) (i : Option String),
      transmit_request s t i [] = s)
    ∧ (∀ (s : LoggerState) (m : String), write_request s m [] = s) := by
  refine ⟨?_, ?_, ?_⟩ <;> intros <;> rfl

/-- C4 counterexample: from the reachable state in which a read command is
in flight, two identical `write_request` submissions both enter the queue —
`write_request` has no duplicate check, so the queue holds two Commands
with identical `(target, identifier, kind)`, where the claim demands the
second be dropped. -/
theorem duplicate_write_queued :
    (write_request (write_request
        (read_request initState (.obj 3) (some "x") ["9"]
          (some ["select"]) .read)
        "conf" ["1", "2"]) "conf" ["1", "2"]).request_stack.map
      (fun r => (r.target, r.ident, r.rtype))
      = [(.msg "conf", none, .write), (.msg "conf", none, .write)] := by
  rfl

/-- C1 counterexample: submit a sticky read (`["1", "STAY"]`), then — while
it is active — a second read (`["2"]`).  The second submission is never
appended to the queue; after the sticky command completes and the block
lifts, the final state is a fixpoint of the drain tick with an empty queue
and `"2"` never written: the held submission is dropped, not executed, so
the claim's "after which the held submissions are executed" fails. -/
theorem sticky_drops_other_submissions :
    (read_request
        (read_request initState (.obj 1) (some "a") ["1", "STAY"]
          (some ["select"]) .read)
        (.obj 2) (some "b") ["2"] (some ["select"]) .read).request_stack = []
    ∧ (let s3 := parse_request_stack (parse_read_request_step
          (parse_read_request_step (parse_read_request_step
            { read_request
                (read_request initState (.obj 1) (some "a") ["1", "STAY"]
                  (some ["select"]) .read)
                (.obj 2) (some "b") ["2"] (some ["select"]) .read with
              input := ["foo", "Select"] })))
       s3.request_stack = [] ∧ s3.written = ["1"]
         ∧ s3.request_block = false ∧ s3.request_type = none
         ∧ parse_request_stack s3 = s3) := by
  exact ⟨rfl, rfl, rfl, rfl, rfl, rfl⟩

/-- C2 counterexample: the spec §8 read (`submit_read(t,"bar",["2"],
["select"])` answered by a menu block) completes by writing `"h"` — it
never writes `"q"`, so the scheduler does not return to Idle "after
sending exactly one q", and the unwind is a single `"h"`, not one `"q"`
per depth. -/
theorem read_unwind_writes_h_not_q :
    (let s3 := parse_read_request_step (parse_read_request_step
        (parse_read_request_step
          { read_request initState (.obj 0) (some "bar") ["2"]
              (some ["select"]) .read with
            input := ["Bar: 5 V", "Select"] }))
     s3.read_func = .requeststack
       ∧ s3.events = [⟨.obj 0, some "bar", ["Bar: 5 V", "Select"], true⟩]
       ∧ s3.written = ["2", "h"]
       ∧ s3.written.count "q" = 0) := by
  exact ⟨rfl, rfl, rfl, rfl⟩

/-- C3 counterexample: a scheduler sub-state (`parse_read_request`,
`AwaitStop`) with a buffered `HALT` line does not transition to the
terminal Halted state on its tick — the tick leaves the state completely
unchanged, still in the read machine with no halt message. -/
theorem halt_ignored_in_scheduler_state :
    (let c : LoggerState :=
      { initState with
        read_func := .readreq,
        read_state := 1,
        request_type := some .read,
        request_ident := some "x",
        request_target := .obj 5,
        request_stop := some ["select"],
        input := ["bad stuff", "HALT"] }
     parse_read_request_step c = c
       ∧ (parse_read_request_step c).read_func ≠ .idle
       ∧ (parse_read_request_step c).msg = none) := by
  exact ⟨rfl, by decide, rfl⟩

/-- C4 (amended): read and transmit submissions whose
`(target, identifier, kind)` triple already appears in the queue are
silently dropped, leaving the state unchanged; write submissions carry no
duplicate check and are always appended when not blocked. -/
theorem read_transmit_dedup :
    (∀ (s : LoggerState) (t : RTarget) (i : Option String)
        (start : List String) (stop : Option (List String)) (act : RType),
      (∃ req ∈ s.request_stack,
          req.target = t ∧ req.ident = i ∧ req.rtype = act) →
      read_request s t i start stop act = s)
    ∧ (∀ (s : LoggerState) (m : String) (start : List String),
      s.request_block = false → start ≠ [] → s.read_func ≠ .requeststack →
      write_request s m start
        = { s with request_stack := s.request_stack ++
            [⟨.msg m, none, start, true, none, .write⟩] }) := by
  constructor
  · rintro s t i start stop act ⟨req, hmem, h1, h2, h3⟩
    unfold read_request
    by_cases hlen : start.length = 0
    · simp [hlen]
    · have hany : (s.request_stack.any fun r =>
          r.target == t && r.ident == i && r.rtype == act) = true :=
        List.any_eq_true.mpr ⟨req, hmem, by simp [h1, h2, h3]⟩
      simp [hlen, hany]
  · intro s m start hb hne hrf
    unfold write_request
    have hlen : ¬(start.length = 0) := by
      simpa [List.length_eq_zero] using hne
    simp [hlen, hb, hrf]

/-- Closed witness for `read_transmit_dedup`. -/
theorem read_transmit_dedup_witness :
    read_request
        { initState with
          read_func := .readreq,
          request_stack :=
            [⟨.obj 1, some "a", ["1"], true, some ["select"], .read⟩] }
        (.obj 1) (some "a") ["7"] (some ["select"]) .read
      = { initState with
          read_func := .readreq,
          request_stack :=
            [⟨.obj 1, some "a", ["1"], true, some ["select"], .read⟩] }
    ∧ write_request
        { initState with read_func := .readreq } "conf" ["1"]
      = { { initState with read_func := .readreq } with
          request_stack :=
            [⟨.msg "conf", none, ["1"], true, none, .write⟩] } :=
  ⟨read_transmit_dedup.1 _ _ _ _ _ _
    ⟨⟨.obj 1, some "a", ["1"], true, some ["select"], .read⟩,
      by simp, rfl, rfl, rfl⟩,
   by
    have h := read_transmit_dedup.2
      { initState with read_func := .readreq } "conf" ["1"]
      rfl (by decide) (by decide)
    simpa using h⟩

/-- C1 (amended): a trailing `STAY` sentinel is stripped, the Command is
flagged to skip the return-to-root, and the submission block is raised —
but while the block is raised a non-`STAY` submission is silently DROPPED
(never queued, never executed), not held; the block lifts on the first
drain tick after the queue is empty and no command is active. -/
theorem stay_sentinel_semantics :
    (∀ (s : LoggerState) (t : RTarget) (i : Option String)
        (start : List String) (stop : Option (List String)) (act : RType),
      s.read_func ≠ .requeststack →
      start.getLast? = some "STAY" →
      (s.request_stack.any fun req =>
        req.target == t && req.ident == i && req.rtype == act) = false →
      read_request s t i start stop act
        = { s with request_block := true,
                   request_stack := s.request_stack ++
                     [⟨t, i, start.dropLast, false, stop, act⟩] })
    ∧ (∀ (s : LoggerState) (t : RTarget) (i : Option String)
        (start : List String) (stop : Option (List String)) (act : RType),
      s.read_func ≠ .requeststack → s.request_block = true →
      start ≠ [] → start.getLast? ≠ some "STAY" →
      read_request s t i start stop act = s)
    ∧ (∀ s : LoggerState, s.request_stack = [] → s.request_type = none →
      parse_request_stack s = { s with request_block := false }) := by
  refine ⟨?_, ?_, ?_⟩
  · intro s t i start stop act hrf hlast hany
    have hne : start ≠ [] := by
      intro h; rw [h] at hlast; simp at hlast
    have hlen : ¬(start.length = 0) := by
      simpa [List.length_eq_zero] using hne
    unfold read_request
    simp [hlen, hany, hlast, hrf]
  · intro s t i start stop act hrf hb hne hlast
    have hlen : ¬(start.length = 0) := by
      simpa [List.length_eq_zero] using hne
    unfold read_request
    by_cases hany : (s.request_stack.any fun req =>
        req.target == t && req.ident == i && req.rtype == act) = true
    · simp [hlen, hany]
    · obtain ⟨x, hx⟩ : ∃ x, start.getLast? = some x := by
        cases hgl : start.getLast? with
        | none => exact absurd (List.getLast?_eq_none.mp hgl) hne
        | some x => exact ⟨x, rfl⟩
      have hxne : x ≠ "STAY" := by
        intro h; rw [h] at hx; exact hlast hx
      simp [hlen, hany, hx, hxne, hb, hrf]
  · intro s h1 h2
    unfold parse_request_stack
    simp [h1, h2]

/-- Closed witness for `stay_sentinel_semantics`. -/
theorem stay_sentinel_semantics_witness :
    read_request { initState with read_func := .readreq }
        (.obj 1) (some "a") ["1", "STAY"] (some ["select"]) .read
      = { { initState with read_func := .readreq } with
          request_block := true,
          request_stack :=
            [⟨.obj 1, some "a", ["1"], false, some ["select"], .read⟩] }
    ∧ read_request
        { initState with read_func := .readreq, request_block := true }
        (.obj 2) (some "b") ["2"] (some ["select"]) .read
      = { initState with read_func := .readreq, request_block := true }
    ∧ parse_request_stack { initState with request_block := true }
      = { { initState with request_block := true } with
          request_block := false } :=
  ⟨by
    have h := stay_sentinel_semantics.1
      { initState with read_func := .readreq }
      (.obj 1) (some "a") ["1", "STAY"] (some ["select"]) .read
      (by decide) (by rfl) (by rfl)
    simpa using h,
   stay_sentinel_semantics.2.1
    { initState with read_func := .readreq, request_block := true }
    (.obj 2) (some "b") ["2"] (some ["select"]) .read
    (by decide) rfl (by decide) (by decide),
   stay_sentinel_semantics.2.2 { initState with request_block := true }
    rfl rfl⟩

/-- C2 (amended): when a read/transmit command reaches its unwind step, the
scheduler clears the input and — unless the command is sticky — writes the
single token `"h"` (jump back to the root menu in one step, not one `"q"`
per depth), then rests in the Idle drain state; in the spec §8 example the
scheduler returns to Idle having written exactly `["2", "h"]` and no
`"q"`. -/
theorem read_unwind_semantics :
    (∀ s : LoggerState, s.read_state = 3 →
      parse_read_request_step s
        = { s with input := [],
                   written := s.written ++
                     (if s.request_end then ["h"] else []),
                   request_type := none,
                   read_func := .requeststack })
    ∧ (let s3 := parse_read_request_step (parse_read_request_step
        (parse_read_request_step
          { read_request initState (.obj 0) (some "bar") ["2"]
              (some ["select"]) .read with
            input := ["Bar: 5 V", "Select"] }))
       s3.read_func = .requeststack ∧ s3.written = ["2", "h"]
         ∧ s3.written.count "h" = 1 ∧ s3.written.count "q" = 0) := by
  constructor
  · intro s h
    unfold parse_read_request_step
    by_cases he : s.request_end <;> simp [h, he]
  · exact ⟨rfl, rfl, rfl, rfl⟩

/-- Closed witness for `read_unwind_semantics`. -/
theorem read_unwind_semantics_witness :
    parse_read_request_step
        { initState with read_state := 3, read_func := .readreq }
      = { { initState with read_state := 3, read_func := .readreq } with
          input := [],
          written := [] ++ (if true then ["h"] else []),
          request_type := none,
          read_func := .requeststack } := by
  have h := read_unwind_semantics.1
    { initState with read_state := 3, read_func := .readreq } rfl
  simpa using h

/-- The scan loop of `parse_logo` short-circuits to `parse_halt` at the
first buffered line containing `HALT`, whatever the banner accumulators
hold. -/
theorem logoLoop_halt (s : LoggerState) :
    ∀ (inp : List String) (k0 : ℕ) (ts tm te : Option ℕ) (j : ℕ),
      firstHalt inp = some j →
      logoLoop s inp k0 ts tm te = parse_halt s (k0 + j) := by
  intro inp
  induction inp with
  | nil => intro k0 ts tm te j h; simp [firstHalt] at h
  | cons l rest ih =>
    intro k0 ts tm te j h
    by_cases hl : py_in "HALT" l = true
    · rw [firstHalt, if_pos hl] at h
      cases h
      simp [logoLoop, hl]
    · have hl2 : py_in "HALT" l = false := by
        rw [Bool.eq_false_iff]; exact fun hc => hl hc
      rw [firstHalt, if_neg (by simp [hl2])] at h
      cases hfr : firstHalt rest with
      | none => rw [hfr] at h; simp at h
      | some j2 =>
        rw [hfr] at h
        have hj : j = j2 + 1 := by simpa using h.symm
        subst hj
        have harith : k0 + 1 + j2 = k0 + (j2 + 1) := by omega
        unfold logoLoop
        rw [if_neg (by simp [hl2])]
        by_cases h1 : l.toList.take 20 = List.replicate 20 '='
        · rw [if_pos h1, ih (k0 + 1) (some k0) tm te j2 hfr, harith]
        · rw [if_neg h1]
          by_cases h2 : (ts.isSome && py_in " by " l) = true
          · rw [if_pos h2, ih (k0 + 1) ts (some k0) te j2 hfr, harith]
          · rw [if_neg h2]
            by_cases h3 :
                (ts.isSome && decide (l.toList.take 20
                  = List.replicate 20 '-')) = true
            · rw [if_pos h3, ih (k0 + 1) ts tm (some k0) j2 hfr, harith]
            · rw [if_neg h3, ih (k0 + 1) ts tm te j2 hfr, harith]

/-- A tick of the read sub-machine either keeps the dispatch function or
hands control back to the drain state; it never reaches `parse_idle`. -/
theorem read_step_rfunc (s : LoggerState) :
    (parse_read_request_step s).read_func = s.read_func
      ∨ (parse_read_request_step s).read_func = .requeststack := by
  unfold parse_read_request_step
  by_cases h0 : s.read_state = 0
  · rw [if_pos h0]
    cases hrs : s.request_start with
    | none => simp
    | some l =>
      cases l with
      | nil => simp
      | cons t rest =>
        by_cases hr : rest.length > 0 <;> simp [hr]
  · rw [if_neg h0]
    by_cases h1 : s.read_state = 1
    · rw [if_pos h1]
      by_cases hask : s.request_type = some .read ∧ s.input.length > 0 ∧
          pyEndsWith (pyLower (s.input.getLastD "")) " [y/n] " = true
      · simp only [if_pos hask]
        split <;> simp [ask]
      · simp only [if_neg hask]
        by_cases hstop : s.request_stop = none ∨
            (s.request_stop.getD []).length = 0
        · simp only [if_pos hstop]
          split <;> simp
        · simp only [if_neg hstop]
          by_cases hin : s.input.length > 0
          · simp only [if_pos hin]
            cases hls : lookupStop (s.request_stop.getD [])
                (if (pyStrip (pyLower (s.input.getLastD ""))).length = 0
                    ∧ s.input.length > 1 then
                  pyLower (s.input.getD (s.input.length - 2) "")
                else pyLower (s.input.getLastD "")) with
            | none => simp only [hls]; split <;> simp
            | some k => simp only [hls]; split <;> simp
          · simp only [if_neg hin]
            split <;> simp
    · rw [if_neg h1]
      by_cases h2 : s.read_state = 2
      · rw [if_pos h2]
        by_cases ht : s.request_target ≠ RTarget.none <;>
          by_cases htr : s.request_type = some .transmit ∧
            s.request_stop_index = some 1 <;>
          simp [ht, htr]
      · rw [if_neg h2]
        by_cases h3 : s.read_state = 3
        · rw [if_pos h3]
          by_cases he : s.request_end <;> simp [he]
        · rw [if_neg h3]
          by_cases h4 : s.read_state = 4
          · rw [if_pos h4]
            split <;> dsimp only <;> split <;> simp
          · rw [if_neg h4]
            simp

/-- A tick of the write sub-machine either keeps the dispatch function or
hands control back to the drain state; it never reaches `parse_idle`. -/
theorem write_step_rfunc (s : LoggerState) :
    (parse_write_request_step s).read_func = s.read_func
      ∨ (parse_write_request_step s).read_func = .requeststack := by
  unfold parse_write_request_step
  by_cases h0 : s.read_state = 0
  · rw [if_pos h0]
    cases hrs : s.request_start with
    | none => simp
    | some l => cases l <;> simp
  · rw [if_neg h0]
    by_cases h1 : s.read_state = 1
    · rw [if_pos h1]
      cases s.request_target <;> simp
    · rw [if_neg h1]
      by_cases h2 : s.read_state = 2
      · rw [if_pos h2]
        by_cases he : s.request_end <;> simp [he]
      · rw [if_neg h2]; simp

/-- A tick of the read sub-machine never rests in `parse_idle`. -/
theorem read_step_not_idle (s : LoggerState) (h : s.read_func ≠ .idle) :
    (parse_read_request_step s).read_func ≠ .idle := by
  rcases read_step_rfunc s with hr | hr <;> rw [hr]
  · exact h
  · simp

/-- A tick of the write sub-machine never rests in `parse_idle`. -/
theorem write_step_not_idle (s : LoggerState) (h : s.read_func ≠ .idle) :
    (parse_write_request_step s).read_func ≠ .idle := by
  rcases write_step_rfunc s with hr | hr <;> rw [hr]
  · exact h
  · simp

/-- The scan loop of `parse_menu` short-circuits at the first buffered
line containing `HALT`, whatever the markers hold. -/
theorem menuScan_halt (t : String) :
    ∀ (inp : List String) (k0 : ℕ) (ms me : Option ℕ) (j : ℕ),
      firstHalt inp = some j →
      menuScan t inp k0 ms me = .inl (k0 + j) := by
  intro inp
  induction inp with
  | nil => intro k0 ms me j h; simp [firstHalt] at h
  | cons l rest ih =>
    intro k0 ms me j h
    by_cases hl : py_in "HALT" l = true
    · rw [firstHalt, if_pos hl] at h
      cases h
      simp [menuScan, hl]
    · have hl2 : py_in "HALT" l = false := by
        rw [Bool.eq_false_iff]; exact fun hc => hl hc
      rw [firstHalt, if_neg (by simp [hl2])] at h
      cases hfr : firstHalt rest with
      | none => rw [hfr] at h; simp at h
      | some j2 =>
        rw [hfr] at h
        have hj : j = j2 + 1 := by simpa using h.symm
        subst hj
        have harith : k0 + 1 + j2 = k0 + (j2 + 1) := by omega
        unfold menuScan
        rw [if_neg (by simp [hl2])]
        by_cases h1 : py_in (t ++ ":") l = true
        · rw [if_pos h1, ih (k0 + 1) (some k0) me j2 hfr, harith]
        · rw [if_neg h1]
          by_cases h2 : (ms.isSome && py_in "Select" l) = true
          · rw [if_pos h2, ih (k0 + 1) ms (some k0) j2 hfr, harith]
          · rw [if_neg h2, ih (k0 + 1) ms me j2 hfr, harith]

/-- With no buffered `HALT` line, the scan loop of `parse_menu` runs to
its marker conclusion. -/
theorem menuScan_nohalt (t : String) :
    ∀ (inp : List String) (k0 : ℕ) (ms me : Option ℕ),
      firstHalt inp = none →
      ∃ p, menuScan t inp k0 ms me = .inr p := by
  intro inp
  induction inp with
  | nil => intro k0 ms me _; exact ⟨(ms, me), rfl⟩
  | cons l rest ih =>
    intro k0 ms me h
    have hl2 : py_in "HALT" l = false := by
      by_contra hc
      rw [Bool.not_eq_false] at hc
      rw [firstHalt, if_pos hc] at h
      simp at h
    rw [firstHalt, if_neg (by simp [hl2])] at h
    have hfr : firstHalt rest = none := by
      cases hfr : firstHalt rest with
      | none => rfl
      | some j2 => rw [hfr] at h; simp at h
    unfold menuScan
    rw [if_neg (by simp [hl2])]
    by_cases h1 : py_in (t ++ ":") l = true
    · rw [if_pos h1]; exact ih (k0 + 1) (some k0) me hfr
    · rw [if_neg h1]
      by_cases h2 : (ms.isSome && py_in "Select" l) = true
      · rw [if_pos h2]; exact ih (k0 + 1) ms (some k0) hfr
      · rw [if_neg h2]; exact ih (k0 + 1) ms me hfr

/-- `parse_menu` on a buffer holding `HALT` calls `parse_halt` at the
first such line and returns Python `None`, within the same call. -/
theorem parse_menu_halt (s : LoggerState) (t : String) (k : ℕ)
    (h : firstHalt s.input = some k) :
    parse_menu s (some t) = (parse_halt s k, some none) := by
  have hm := menuScan_halt t s.input 0 none none k h
  rw [Nat.zero_add] at hm
  unfold parse_menu
  dsimp only
  rw [hm]

/-- With no buffered `HALT` line, `parse_menu` never touches the dispatch
function or the message label — it may clear the input, build a dict, or
mark an exception tick. -/
theorem parse_menu_nohalt (s : LoggerState) (t : Option String)
    (h : firstHalt s.input = none) :
    (parse_menu s t).1.read_func = s.read_func
      ∧ (parse_menu s t).1.msg = s.msg := by
  cases t with
  | none =>
    cases hin : s.input with
    | nil =>
      unfold parse_menu
      dsimp only
      rw [hin]
      exact ⟨rfl, rfl⟩
    | cons l rest =>
      have hl2 : py_in "HALT" l = false := by
        by_contra hc
        rw [Bool.not_eq_false] at hc
        rw [hin, firstHalt, if_pos hc] at h
        simp at h
      unfold parse_menu
      dsimp only
      rw [hin]
      dsimp only
      rw [if_neg (by simp [hl2])]
      exact ⟨rfl, rfl⟩
  | some t0 =>
    obtain ⟨p, hp⟩ := menuScan_nohalt t0 s.input 0 none none h
    obtain ⟨ms, me⟩ := p
    unfold parse_menu
    dsimp only
    rw [hp]
    cases ms with
    | none => exact ⟨rfl, rfl⟩
    | some ms0 =>
      cases me with
      | none => exact ⟨rfl, rfl⟩
      | some me0 =>
        dsimp only
        cases hb : menuBuild [] ((s.input.take me0).drop (ms0 + 1)) with
        | none => exact ⟨rfl, rfl⟩
        | some m => exact ⟨rfl, rfl⟩

/-- With no buffered `HALT` in its parsing state, a `parse_mainmenu` tick
keeps the dispatch function or hands it to the submenu walk. -/
theorem mainmenu_rfunc (s : LoggerState)
    (hna : s.read_state = 1 → firstHalt s.input = none) :
    (parse_mainmenu s).read_func = s.read_func
      ∨ (parse_mainmenu s).read_func = .submenus := by
  unfold parse_mainmenu
  by_cases h0 : s.read_state = 0
  · rw [if_pos h0]; left; rfl
  · rw [if_neg h0]
    by_cases h1 : s.read_state = 1
    · rw [if_pos h1]
      have hp := parse_menu_nohalt s (some "Menu") (hna h1)
      cases hpm : parse_menu s (some "Menu") with
      | mk s1 r =>
        rw [hpm] at hp
        cases r with
        | none => left; exact hp.1
        | some r2 =>
          cases r2 with
          | none => left; exact hp.1
          | some m =>
            dsimp only
            by_cases hm : m.length > 0
            · rw [if_pos hm]; right; rfl
            · rw [if_neg hm]; left; exact hp.1
    · rw [if_neg h1]; left; rfl

/-- With no buffered `HALT` in its parsing state, a `parse_submenus` tick
keeps the dispatch function or hands it back to the drain state. -/
theorem submenus_rfunc (s : LoggerState)
    (hna : s.read_state = 11 → firstHalt s.input = none) :
    (parse_submenus s).read_func = s.read_func
      ∨ (parse_submenus s).read_func = .requeststack := by
  unfold parse_submenus
  by_cases h11 : s.read_state = 11
  · rw [if_neg (by omega), if_neg (by omega), if_pos h11]
    by_cases hg : s.input.length > 1
        ∧ py_in "Select" (s.input.getLastD "") = true
    · rw [if_pos hg]
      have hp := parse_menu_nohalt s s.menuKey (hna h11)
      cases hpm : parse_menu s s.menuKey with
      | mk s1 r =>
        rw [hpm] at hp
        cases r with
        | none => left; exact hp.1
        | some r2 =>
          cases r2 with
          | none => left; exact hp.1
          | some sub =>
            dsimp only
            by_cases hs : sub.length > 0
            · rw [if_pos hs]
              cases s1.menuItem with
              | none => left; exact hp.1
              | some it => cases it <;> (left; exact hp.1)
            · rw [if_neg hs]; left; exact hp.1
    · rw [if_neg hg]; left; rfl
  · by_cases h0 : s.read_state = 0
    · rw [if_pos h0]
      cases s.menuIter.getLast? with
      | none => left; rfl
      | some top =>
        cases top with
        | nil =>
          dsimp only
          cases s.menuIds.getLast? with
          | none => left; rfl
          | some x =>
            dsimp only
            by_cases hit : s.menuIter.dropLast.length = 0
            · rw [if_pos hit]; right; rfl
            · rw [if_neg hit]; left; rfl
        | cons kv restItems =>
          obtain ⟨key, item⟩ := kv
          dsimp only
          cases s.menuIds.getLast? with
          | none => left; rfl
          | some x =>
            dsimp only
            by_cases ht1 : item.tag = "menu"
            · rw [if_pos ht1]; left; rfl
            · rw [if_neg ht1]
              by_cases ht2 : item.tag = "param"
              · rw [if_pos ht2]; left; rfl
              · rw [if_neg ht2]; left; rfl
    · rw [if_neg h0]
      by_cases h10 : s.read_state = 10
      · rw [if_pos h10]
        repeat' split
        all_goals (left; rfl)
      · rw [if_neg h10, if_neg h11]
        by_cases h20 : s.read_state = 20
        · rw [if_pos h20]
          repeat' split
          all_goals (left; rfl)
        · rw [if_neg h20]
          by_cases h21 : s.read_state = 21
          · rw [if_pos h21]
            repeat' split
            all_goals try (left; rfl)
            all_goals (dsimp only; split <;> (left; rfl))
          · rw [if_neg h21]; left; rfl

/-- C3 (amended): a buffered `HALT` line is checked only where the code
scans for it — the banner-awaiting state and the menu-block scan
`parse_menu`, invoked by the main-menu state in its parsing step and by
the submenu state when the buffer looks like a complete menu block — and
there it short-circuits to the terminal Halted state within the same
tick, at the FIRST such line, surfacing `"Logger halted"` plus the last
non-empty preceding line (the last buffered line if none precedes); in
the two menu states the same tick then dies of an uncaught `TypeError`
(`len(None)`) with the dispatch already rested in `parse_idle`.  Without
a buffered `HALT` (or when the submenu state's block test fails, which
skips the scan entirely) the menu crawl never reaches Halted, and the
configuration-file scan, the menu-configuration writes, and the
scheduler's sub-states never check `HALT` and never transition to
Halted. -/
theorem halt_checked_in_banner_not_scheduler :
    (∀ (s : LoggerState) (k : ℕ), s.read_func = .logo →
      firstHalt s.input = some k →
      parse_logo s = parse_halt s k
        ∧ (parse_logo s).read_func = .idle
        ∧ (parse_logo s).msg
            = some ("Logger halted\n" ++ walkBack s.input k))
    ∧ (∀ (s : LoggerState) (t : String) (k : ℕ),
        firstHalt s.input = some k →
        parse_menu s (some t) = (parse_halt s k, some none))
    ∧ (∀ (s : LoggerState) (k : ℕ), s.read_func = .mainmenu →
        s.read_state = 1 → firstHalt s.input = some k →
        parse_mainmenu s
            = { parse_halt s k with menu := none, crashed := true }
          ∧ (parse_mainmenu s).read_func = .idle
          ∧ (parse_mainmenu s).msg
              = some ("Logger halted\n" ++ walkBack s.input k))
    ∧ (∀ (s : LoggerState) (t : String) (k : ℕ), s.read_func = .submenus →
        s.read_state = 11 → s.menuKey = some t →
        s.input.length > 1 → py_in "Select" (s.input.getLastD "") = true →
        firstHalt s.input = some k →
        parse_submenus s = { parse_halt s k with crashed := true }
          ∧ (parse_submenus s).read_func = .idle
          ∧ (parse_submenus s).msg
              = some ("Logger halted\n" ++ walkBack s.input k))
    ∧ (∀ s : LoggerState, s.read_state = 11 →
        ¬(s.input.length > 1 ∧ py_in "Select" (s.input.getLastD "") = true) →
        parse_submenus s = s)
    ∧ (∀ s : LoggerState, (parse_configfile s).read_func = .configuremenu)
    ∧ (∀ s : LoggerState, s.read_func = .configuremenu →
        (configure_menu s).read_func ≠ .idle)
    ∧ (∀ s : LoggerState, s.read_func = .mainmenu →
        s.read_state ≠ 1 ∨ firstHalt s.input = none →
        (parse_mainmenu s).read_func ≠ .idle)
    ∧ (∀ s : LoggerState, s.read_func = .submenus →
        s.read_state ≠ 11 ∨ firstHalt s.input = none →
        (parse_submenus s).read_func ≠ .idle)
    ∧ (∀ s : LoggerState, s.read_func = .readreq →
        (parse_read_request_step s).read_func ≠ .idle)
    ∧ (∀ s : LoggerState, s.read_func = .writereq →
        (parse_write_request_step s).read_func ≠ .idle)
    ∧ (∀ s : LoggerState, s.read_func = .requeststack →
        (parse_request_stack s).read_func ≠ .idle) := by
  refine ⟨?_, ?_, ?_, ?_, ?_, ?_, ?_, ?_, ?_, ?_, ?_, ?_⟩
  · intro s k _ hfh
    have hmain : parse_logo s = parse_halt s k := by
      unfold parse_logo
      have := logoLoop_halt s s.input 0 none none none k hfh
      simpa using this
    exact ⟨hmain, by rw [hmain]; rfl, by rw [hmain]; rfl⟩
  · intro s t k hfh
    exact parse_menu_halt s t k hfh
  · intro s k _ hrs hfh
    have hm := parse_menu_halt s "Menu" k hfh
    have hmain : parse_mainmenu s
        = { parse_halt s k with menu := none, crashed := true } := by
      unfold parse_mainmenu
      rw [if_neg (by omega), if_pos hrs, hm]
    exact ⟨hmain, by rw [hmain]; rfl, by rw [hmain]; rfl⟩
  · intro s t k _ hrs hkey hlen hsel hfh
    have hm := parse_menu_halt s t k hfh
    have hmain : parse_submenus s
        = { parse_halt s k with crashed := true } := by
      unfold parse_submenus
      rw [if_neg (by omega), if_neg (by omega), if_pos hrs,
          if_pos ⟨hlen, hsel⟩, hkey, hm]
    exact ⟨hmain, by rw [hmain]; rfl, by rw [hmain]; rfl⟩
  · intro s hrs hng
    unfold parse_submenus
    rw [if_neg (by omega), if_neg (by omega), if_pos hrs, if_neg hng]
  · intro s
    rfl
  · intro s h
    unfold configure_menu
    by_cases h0 : s.read_state = 0
    · rw [if_pos h0]; simp [h]
    · rw [if_neg h0]
      by_cases h1 : s.read_state = 1
      · rw [if_pos h1]; simp
      · rw [if_neg h1]; simp [h]
  · intro s hrf hel
    rcases mainmenu_rfunc s (fun h1 => hel.resolve_left (fun hne => hne h1))
      with hr | hr <;> rw [hr] <;> simp [hrf]
  · intro s hrf hel
    rcases submenus_rfunc s (fun h1 => hel.resolve_left (fun hne => hne h1))
      with hr | hr <;> rw [hr] <;> simp [hrf]
  · intro s h
    rcases read_step_rfunc s with hr | hr <;> rw [hr] <;> simp [h]
  · intro s h
    rcases write_step_rfunc s with hr | hr <;> rw [hr] <;> simp [h]
  · intro s h
    unfold parse_request_stack
    cases hst : s.request_stack with
    | nil =>
      by_cases ht : s.request_type = none <;> simp [ht, h]
    | cons req rest =>
      dsimp only
      by_cases hw : req.rtype = .write
      · rw [if_pos hw]
        apply write_step_not_idle
        simp [hw]
      · rw [if_neg hw]
        apply read_step_not_idle
        simp [hw]

/-- Closed witness for `halt_checked_in_banner_not_scheduler`. -/
theorem halt_checked_witness :
    (parse_logo
        { initState with
          read_func := .logo,
          input := ["Booting", "", "HALT on error"] }).msg
      = some ("Logger halted\nBooting")
    ∧ (parse_mainmenu
        { initState with
          read_func := .mainmenu, read_state := 1,
          input := ["junk", "HALT!"] }).msg
      = some ("Logger halted\njunk")
    ∧ (parse_submenus
        { initState with
          read_func := .submenus, read_state := 11,
          menuKey := some "Settings",
          input := ["HALT", "  Select [1]: "] }).read_func = .idle
    ∧ (parse_read_request_step
        { initState with read_func := .readreq }).read_func ≠ .idle :=
  ⟨by
    have h := (halt_checked_in_banner_not_scheduler.1
      { initState with
        read_func := .logo, input := ["Booting", "", "HALT on error"] }
      2 rfl (by rfl)).2.2
    simpa using h,
   by
    have h := (halt_checked_in_banner_not_scheduler.2.2.1
      { initState with
        read_func := .mainmenu, read_state := 1,
        input := ["junk", "HALT!"] }
      1 rfl rfl (by rfl)).2.2
    simpa using h,
   (halt_checked_in_banner_not_scheduler.2.2.2.1
      { initState with
        read_func := .submenus, read_state := 11,
        menuKey := some "Settings",
        input := ["HALT", "  Select [1]: "] }
      "Settings" 0 rfl rfl rfl (by decide) (by rfl) (by rfl)).2.1,
   halt_checked_in_banner_not_scheduler.2.2.2.2.2.2.2.2.2.1
    { initState with read_func := .readreq } rfl⟩

theorem exc_bind_ok {α β : Type} (a : α) (f : α → Except String β) :
    (Except.ok a >>= f) = f a := rfl

theorem exc_bind_err {α β : Type} (e : String)
    (f : α → Except String β) :
    ((Except.error e : Except String α) >>= f) = Except.error e := rfl

/-- Every factor in the special-unit table is nonzero. -/
theorem unit_factors_ne_zero : ∀ x ∈ unit_factors, x.2 ≠ 0 := by
  intro x hx
  fin_cases hx <;> norm_num

/-- Every factor in the SI-prefix table is nonzero. -/
theorem unit_prefixes_ne_zero : ∀ x ∈ unit_prefixes, x.2 ≠ 0 := by
  intro x hx
  fin_cases hx <;> norm_num

/-- The overwriting fold of `prefixFactor` keeps a nonzero factor. -/
theorem prefixFactor_ne_zero (u : String) : prefixFactor u ≠ 0 := by
  unfold prefixFactor
  have h : ∀ (l : List (String × ℚ)) (init : ℚ), init ≠ 0 →
      (∀ x ∈ l, x.2 ≠ 0) →
      l.foldl (fun fac p =>
        if u.length > p.1.length && p.1.toList.isPrefixOf u.toList then p.2
        else fac) init ≠ 0 := by
    intro l
    induction l with
    | nil => intro init h0 _; simpa using h0
    | cons x xs ih =>
      intro init h0 hall
      simp only [List.foldl_cons]
      by_cases hc : (u.length > x.1.length
          && x.1.toList.isPrefixOf u.toList) = true
      · rw [hc]
        simp only [ite_true]
        exact ih x.2 (hall x (by simp)) (fun y hy => hall y (by simp [hy]))
      · rw [Bool.not_eq_true] at hc
        rw [hc]
        simp only [Bool.false_eq_true, ite_false]
        exact ih init h0 (fun y hy => hall y (by simp [hy]))
  exact h unit_prefixes 1 one_ne_zero unit_prefixes_ne_zero

/-- The factor `change_unit` resolves for any unit is nonzero. -/
theorem resolveFactor_ne_zero (u : String) : resolveFactor u ≠ 0 := by
  unfold resolveFactor
  cases hl : lookupFactor unit_factors u with
  | none => exact prefixFactor_ne_zero u
  | some fac =>
    unfold lookupFactor at hl
    cases hf : unit_factors.find? (fun p => p.1 == u) with
    | none => rw [hf] at hl; simp at hl
    | some x =>
      rw [hf] at hl
      simp at hl
      have hmem := List.mem_of_find?_eq_some hf
      have hnz := unit_factors_ne_zero x hmem
      rw [hl] at hnz
      simpa using hnz

/-- Converting a numeric value from a unit to itself keeps its numeric
value (possibly as a float). -/
theorem change_unitOpt_self (x : PyNum) (u : String) :
    ∃ y, change_unitOpt (some x) u u = .ok (some y) ∧ y.val = x.val := by
  unfold change_unitOpt
  by_cases hu : u.isEmpty
  · refine ⟨x, ?_, rfl⟩
    rw [if_pos (by simp [hu])]
  · have h1 : ¬((u.isEmpty && u.isEmpty) = true) := by simp [hu]
    have h2 : ¬((u.isEmpty && (u != "%")) = true) := by simp [hu]
    rw [if_neg h1, if_neg h2, if_neg h2]
    refine ⟨.f (x.val * resolveFactor u / resolveFactor u), rfl, ?_⟩
    simp only [PyNum.val]
    rw [mul_div_assoc, div_self (resolveFactor_ne_zero u), mul_one]

/-- The first exactly matching combo item is at the found index
(generalized over the scan's start index). -/
theorem findIdx_getD_aux (text : String) :
    ∀ (items : List String) (i0 i : ℕ),
      List.findIdx? (fun x => x == text) items i0 = some i →
      i0 ≤ i ∧ items.getD (i - i0) "" = text := by
  intro items
  induction items with
  | nil => intro i0 i h; simp [List.findIdx?] at h
  | cons x xs ih =>
    intro i0 i h
    rw [List.findIdx?_cons] at h
    by_cases hx : (x == text) = true
    · rw [if_pos hx] at h
      cases h
      refine ⟨le_refl _, ?_⟩
      simpa using hx
    · rw [Bool.not_eq_true] at hx
      rw [hx] at h
      simp only [Bool.false_eq_true, ite_false] at h
      obtain ⟨hle, hget⟩ := ih (i0 + 1) i h
      refine ⟨by omega, ?_⟩
      have harith : i - i0 = (i - (i0 + 1)) + 1 := by omega
      rw [harith]
      simpa using hget

/-- The first exactly matching combo item is at the found index. -/
theorem findIdx_getD (text : String) (items : List String) (i : ℕ)
    (h : items.findIdx? (fun x => x == text) = some i) :
    items.getD i "" = text := by
  have := (findIdx_getD_aux text items 0 i h).2
  simpa using this

/-- What success of the selection-matching loop means: the found index
names a label whose parsed value is within `1e-8` of the incoming value
with an equal unit. -/
theorem comboFindMatch_spec (v : PyNum) (u : String) :
    ∀ (sels : List (Option String × String)) (i0 i : ℕ),
      comboFindMatch sels (some v) u i0 = .ok (some i) →
      ∃ j sv su sd, j < sels.length ∧ i = i0 + j ∧
        parse_number (sels.getD j (none, "")).2 = .ok (some sv, su, sd) ∧
        |v.val - sv.val| < 1 / 10 ^ 8 ∧ u = su := by
  intro sels
  induction sels with
  | nil => intro i0 i h; simp [comboFindMatch] at h
  | cons sel rest ih =>
    intro i0 i h
    unfold comboFindMatch at h
    cases hpr : parse_number sel.2 with
    | error e => rw [hpr, exc_bind_err] at h; exact absurd h (by simp)
    | ok spr =>
      obtain ⟨sv0, su0, sd0⟩ := spr
      rw [hpr, exc_bind_ok] at h
      cases sv0 with
      | none =>
        rw [show pyAbsLt (some v) (none, su0, sd0).1 (1 / 10 ^ 8)
            = Except.error "TypeError" from rfl, exc_bind_err] at h
        exact absurd h (by simp)
      | some sv =>
        rw [show pyAbsLt (some v) (some sv, su0, sd0).1 (1 / 10 ^ 8)
            = Except.ok (decide (|v.val - sv.val| < 1 / 10 ^ 8))
            from rfl, exc_bind_ok] at h
        by_cases hcond : (decide (|v.val - sv.val| < 1 / 10 ^ 8)
            && (u == (some sv, su0, sd0).2.1)) = true
        · rw [if_pos hcond] at h
          cases h
          obtain ⟨hb, hu⟩ : decide (|v.val - sv.val| < 1 / 10 ^ 8) = true
              ∧ (u == (some sv, su0, sd0).2.1) = true := by
            simpa using hcond
          refine ⟨0, sv, su0, sd0, by simp, by omega, by simpa using hpr,
            of_decide_eq_true hb, by simpa using hu⟩
        · rw [if_neg hcond] at h
          obtain ⟨j, sv2, su2, sd2, hj, hi2, hp2, hlt, hu⟩ :=
            ih (i0 + 1) i h
          exact ⟨j + 1, sv2, su2, sd2, by simpa using hj, by omega,
            by simpa using hp2, hlt, hu⟩

theorem exc_pure {α : Type} (a : α) :
    (pure a : Except String α) = Except.ok a := rfl

/-- C9 counterexample: a float-typed enumerated Parameter with the
(displayable) selection label `"auto"`: `set_value("auto")` raises
`TypeError` (Python computes `abs(None - None)` in the matching loop)
instead of yielding `matches=True`. -/
theorem set_value_nonnumeric_label_raises :
    set_value
        { type_str := "float", out_unit := some "", special_val := none,
          special_str := none, selection := [(none, "auto")] }
        (.combo ["auto"] (some 0)) "auto" = .error "TypeError"
      ∧ comboCurrentText ["auto"] (some 0) = "auto" :=
  ⟨rfl, rfl⟩

/-- C9 (amended): `set_value(text)` immediately followed by `verify(text)`
yields `matches = True` for every device text the parameter's widget can
display — any text for booleans, any text within `max_chars` for strings,
a matching item label for enumerations (non-numeric: exact match; numeric:
all compared labels parse and one matches within 1e-8), and the widget's
own rendering (value formatted to the widget's decimals plus the suffix)
for free numeric parameters — except that a numeric-typed enumeration
whose compared label does not parse as a number raises `TypeError` instead
of returning. -/
theorem set_value_verify_roundtrip :
    (∀ (p : PState) (c : Bool) (text : String),
      p.type_str = "boolean" →
      set_value p (.checkbox c) text
        = .ok (.checkbox (pyTruth text), true))
    ∧ (∀ (p : PState) (maxLen : ℕ) (t text : String),
      p.type_str = "string" → p.selection = [] →
      text.toList.length ≤ maxLen →
      set_value p (.lineedit maxLen t) text
        = .ok (.lineedit maxLen text, true))
    ∧ (∀ (p : PState) (items : List String) (idx : Option ℕ)
        (text : String) (i : ℕ),
      p.type_str ≠ "boolean" → p.type_str ≠ "integer" →
      p.type_str ≠ "float" → p.selection ≠ [] →
      items.findIdx? (fun x => x == text) = some i →
      set_value p (.combo items idx) text
        = .ok (.combo items (some i), true))
    ∧ (∀ (p : PState) (idx : Option ℕ) (text : String)
        (v : PyNum) (u : String) (dd i : ℕ),
      (p.type_str = "integer" ∨ p.type_str = "float") →
      p.selection ≠ [] →
      (∀ sel ∈ p.selection, localeNormalize sel.2 = sel.2) →
      parse_number text = .ok (some v, u, dd) →
      comboFindMatch p.selection (some v) u 0 = .ok (some i) →
      set_value p (.combo (p.selection.map Prod.snd) idx) text
        = .ok (.combo (p.selection.map Prod.snd) (some i), true))
    ∧ (∀ (p : PState) (d : ℕ) (suffix : String) (v0 : ℚ)
        (lt text : String) (v : PyNum) (u : String) (dd : ℕ),
      (p.type_str = "integer" ∨ p.type_str = "float") →
      p.selection = [] →
      parse_number text = .ok (some v, u, dd) →
      pyFormatFixed v.val d ++ suffix = text →
      localeNormalize text = text →
      set_value p (.fspin d suffix v0 lt) text
        = .ok (.fspin d suffix v.val text, true)) := by
  refine ⟨?_, ?_, ?_, ?_, ?_⟩
  · -- boolean
    intro p c text h
    unfold set_value verify
    simp [h, exc_pure, exc_bind_ok]
  · -- string
    intro p maxLen t text hty hsel hlen
    obtain ⟨tl⟩ := text
    have htake : List.take maxLen tl = tl :=
      List.take_of_length_le (by simpa using hlen)
    unfold set_value verify
    simp [hty, hsel, htake, exc_pure, exc_bind_ok]
  · -- enumeration, non-numeric
    intro p items idx text i hb hi hf hsel hidx
    have hlen : p.selection.length > 0 := by
      simpa [List.length_pos] using hsel
    have hget : items.getD i "" = text := findIdx_getD text items i hidx
    rw [List.getD_eq_getElem?_getD] at hget
    unfold set_value verify
    simp [hb, hi, hf, hlen, comboSetCurrentText, hidx, comboCurrentText,
      hget, exc_pure, exc_bind_ok]
  · -- enumeration, numeric
    intro p idx text v u dd i hty hsel hnorm hpr hfind
    have hlen : p.selection.length > 0 := by
      simpa [List.length_pos] using hsel
    have hbool : p.type_str ≠ "boolean" := by
      rcases hty with h | h <;> rw [h] <;> decide
    obtain ⟨j, sv, su, sd, hj, hij, hpj, hlt, huj⟩ :=
      comboFindMatch_spec v u p.selection 0 i hfind
    have hij2 : i = j := by omega
    subst hij2
    subst huj
    have hsome : p.selection[i]? = some p.selection[i] :=
      List.getElem?_eq_getElem hj
    have hgd : p.selection.getD i (none, "") = p.selection[i] := by
      rw [List.getD_eq_getElem?_getD, hsome]; rfl
    rw [hgd] at hpj
    have hmem : p.selection[i] ∈ p.selection := List.getElem_mem hj
    have hnormi : localeNormalize (p.selection[i]).2 = (p.selection[i]).2 :=
      hnorm _ hmem
    have htol : |v.val - sv.val| < 1 / 10 ^ 6 :=
      lt_trans hlt (by norm_num)
    unfold set_value verify
    simp [hbool, hty, hlen, hpr, hfind, comboCurrentText, hsome, hnormi,
      hpj, pyAbsLt, exc_pure, exc_bind_ok]
    simpa using htol
  · -- free numeric (custom SpinBox)
    intro p d suffix v0 lt text v u dd hty hsel hpr hfmt hnorm
    have hbool : p.type_str ≠ "boolean" := by
      rcases hty with h | h <;> rw [h] <;> decide
    unfold set_value verify
    obtain ⟨y, hy, hyval⟩ := change_unitOpt_self v u
    by_cases hout : truthyOpt p.out_unit = true
    · simp [hbool, hty, hsel, hpr, fspinSetValue, hfmt, hnorm, hout, hy,
        hyval, pyAbsLt, exc_pure, exc_bind_ok]
    · have hout2 : truthyOpt p.out_unit = false := by
        rw [Bool.eq_false_iff]; exact fun hc => hout hc
      simp [hbool, hty, hsel, hpr, fspinSetValue, hfmt, hnorm, hout2,
        pyAbsLt, exc_pure, exc_bind_ok]

/-- Closed witness for `set_value_verify_roundtrip`. -/
theorem set_value_verify_roundtrip_witness :
    set_value ⟨"boolean", none, none, none, []⟩ (.checkbox false) "Yes"
      = .ok (.checkbox (pyTruth "Yes"), true)
    ∧ set_value ⟨"string", none, none, none, []⟩
        (.lineedit 8 "old") "hello"
      = .ok (.lineedit 8 "hello", true)
    ∧ set_value ⟨"float", some "mV", none, none, []⟩
        (.fspin 0 "mV" 0 "0mV") "5mV"
      = .ok (.fspin 0 "mV" (PyNum.i 5).val "5mV", true) :=
  ⟨set_value_verify_roundtrip.1 ⟨"boolean", none, none, none, []⟩
    false "Yes" rfl,
   set_value_verify_roundtrip.2.1 ⟨"string", none, none, none, []⟩
    8 "old" "hello" rfl rfl (by decide),
   set_value_verify_roundtrip.2.2.2.2 ⟨"float", some "mV", none, none, []⟩
    0 "mV" 0 "0mV" "5mV" (.i 5) "mV" 0 (Or.inr rfl) rfl (by rfl)
    (by
      simp only [PyNum.val]
      norm_num [pyFormatFixed, rhe]
      decide)
    (by rfl)⟩

end LoggerConf
